import Mathlib

/-!
# packer-plugin-ansible-aap: provisioning workflow, job wait loop, configuration

A shallow embedding of the Go sources:

* `src/client.go`, `src/provisioner.go` (package `main`): host-detail discovery and the
  `Provision` workflow, with the remote client as an explicit world of call outcomes and
  the run as a log of the calls it issued;
* `src/config.go` (package `main`): the `Validate` of the configuration the provisioner uses;
* `src/pkgs/client/client.go` (package `client`): the `PollJob` wait loop, driven by the
  sequence of events its `select` observes, the request of `LaunchJob`, the host
  variables of `CreateHost`, `CreateInventory`, `GetCredentialTypes` and
  `GetCredentialTypeID`;
* `src/pkgs/config/config.go` (package `config`): `Config.Validate`.

Go `int` and `time.Duration` values are integers (`Int`); a duration counts nanoseconds.
-/

/-! ## Go values shared by the packages -/

/-- Go `error` values built by the program: `errors.New`, the `*strconv.NumError` of
`strconv.Atoi`, and `fmt.Errorf` with its format string, its `%d` arguments and its
`%s` error argument (present, absent, or a nil error). -/
inductive Error where
  | New (text : String)
  | NumError (Func : String) (Num : String) (Err : String)
  | Errorf (format : String) (ints : List Int)
  | ErrorfErr (format : String) (ints : List Int) (cause : Error)
  | ErrorfNil (format : String) (ints : List Int)
  | ErrorfStrs (format : String) (strs : List String) (ints : List Int)
  deriving DecidableEq, Repr

deriving instance DecidableEq for Except

/-- A value stored in an `extra_vars` mapping (`interface{}` in Go). -/
inductive Value where
  | str (s : String)
  | num (n : Int)
  | bool (b : Bool)
  deriving DecidableEq, Repr

/-- Go `map[string]interface{}`: `none` is the nil map, `some kvs` a map with entries `kvs`. -/
abbrev ExtraVars := Option (List (String × Value))

/-- Go `strings.HasPrefix`. -/
def HasPrefix (s p : String) : Bool := p.toList.isPrefixOf s.toList

/-- Go `time.Second`, in nanoseconds. -/
def Second : Int := 1000000000

/-- Go `time.Minute`, in nanoseconds. -/
def Minute : Int := 60 * Second

/-! ## `strconv.Atoi` -/

/-- The digit loop of `strconv.ParseUint(s, 10, 64)`: a byte that is not a decimal digit
is a syntax error, exceeding 64 bits is a range error; `true` in the error marks the
range error. -/
def parseUintLoop : List Char → Nat → Except Bool Nat
  | [], n => .ok n
  | c :: cs, n =>
    if !c.isDigit then .error false
    else if n ≥ (2 ^ 64 - 1) / 10 + 1 then .error true
    else
      let n1 := n * 10 + (c.toNat - 48)
      if n1 > 2 ^ 64 - 1 then .error true
      else parseUintLoop cs n1

/-- Go `strconv.Atoi` on a 64-bit platform: an optional sign, then at least one decimal
digit, with value in the `int` range. (The fast path for short inputs computes the same
result as `ParseInt(s, 10, 0)`.) -/
def Atoi (s : String) : Except Error Int :=
  let syntaxError : Except Error Int := .error (.NumError "Atoi" s "invalid syntax")
  let rangeError : Except Error Int := .error (.NumError "Atoi" s "value out of range")
  let (neg, digits) : Bool × List Char :=
    match s.toList with
    | '+' :: r => (false, r)
    | '-' :: r => (true, r)
    | cs => (false, cs)
  if digits = [] then syntaxError
  else
    match parseUintLoop digits 0 with
    | .error false => syntaxError
    | .error true => rangeError
    | .ok un =>
      if !neg && un ≥ 2 ^ 63 then rangeError
      else if neg && un > 2 ^ 63 then rangeError
      else .ok (if neg then -(un : Int) else (un : Int))

namespace main

/-! ## Package `main`: `src/client.go`, `src/config.go`, `src/provisioner.go` -/

/-- The struct `HostDetails` of `src/client.go`. -/
structure HostDetails where
  Host : String
  Port : Int
  Username : String
  KeyFile : String
  Password : String
  deriving DecidableEq, Repr

/-- The struct `Config` of `src/config.go`. -/
structure Config where
  TowerHost : String
  Username : String
  Password : String
  JobTemplateID : Int
  InventoryID : Int
  OrganizationID : Int
  DynamicInventory : Bool
  KeepTempInventory : Bool
  ExtraVars : ExtraVars
  Timeout : Int
  PollInterval : Int
  WorkflowTemplateID : Int
  deriving DecidableEq, Repr

/-- The function `getHostDetails` of `src/client.go`; `env` is `os.Getenv`, which gives
the empty string for an unset variable. -/
def getHostDetails (env : String → String) : Except Error HostDetails :=
  let host := env "PACKER_SSH_HOST"
  if host = "" then .error (.New "PACKER_SSH_HOST environment variable is missing")
  else
    let portStr := env "PACKER_SSH_PORT"
    if portStr = "" then .error (.New "PACKER_SSH_PORT environment variable is missing")
    else
      match Atoi portStr with
      | .error err => .error (.ErrorfErr "invalid PACKER_SSH_PORT: %s" [] err)
      | .ok port =>
        let user := env "PACKER_SSH_USERNAME"
        if user = "" then .error (.New "PACKER_SSH_USERNAME environment variable is missing")
        else
          let keyFile := env "PACKER_SSH_KEY_FILE"
          let password := env "PACKER_SSH_PASSWORD"
          if keyFile = "" ∧ password = "" then
            .error (.New "either PACKER_SSH_KEY_FILE or PACKER_SSH_PASSWORD must be set")
          else
            .ok { Host := host, Port := port, Username := user,
                  KeyFile := keyFile, Password := password }

/-- What a run of `Provision` does outside its own frame: the local host-detail
discovery and the six methods of `AAPClient` it invokes, with their arguments. -/
inductive Call where
  | getHostDetails
  | CreateInventory (orgID : Int)
  | CreateHost (invID : Int) (details : HostDetails)
  | DeleteHost (hostID : Int)
  | DeleteInventory (invID : Int)
  | LaunchJob (invID jobTemplateID workflowTemplateID : Int) (extraVars : ExtraVars)
  | PollJob (jobID : Int) (timeout pollInterval : Int)
  deriving DecidableEq, Repr

/-- True for the calls made on the remote client, false for local discovery. -/
def Call.isRemote : Call → Bool
  | .getHostDetails => false
  | _ => true

/-- True for the two cleanup calls. -/
def Call.isDelete : Call → Bool
  | .DeleteHost _ => true
  | .DeleteInventory _ => true
  | _ => false

/-- True for `CreateInventory`. -/
def Call.isCreateInventory : Call → Bool
  | .CreateInventory _ => true
  | _ => false

/-- True for `CreateHost`. -/
def Call.isCreateHost : Call → Bool
  | .CreateHost _ _ => true
  | _ => false

/-- True for `LaunchJob`. -/
def Call.isLaunchJob : Call → Bool
  | .LaunchJob _ _ _ _ => true
  | _ => false

/-- True for `PollJob`. -/
def Call.isPollJob : Call → Bool
  | .PollJob _ _ _ => true
  | _ => false

/-- One entry of the run log: the call and the error it returned (`none` for nil). -/
structure Event where
  call : Call
  err : Option Error
  deriving DecidableEq, Repr

/-- A line sent to `packer.Ui`: `ui.Error(err.Error())`, `ui.Error(fmt.Sprintf(...))`
with its `%d` arguments and its error, or `ui.Message(fmt.Sprintf(...))`. -/
inductive UiLine where
  | Error (err : Error)
  | Errorf (format : String) (ints : List Int) (err : Error)
  | Message (format : String) (ints : List Int)
  deriving DecidableEq, Repr

/-- The surroundings of a run: the process environment and the outcome of every method
of the remote client as a function of its arguments. `Provision` invokes each method at
most once, so this covers every backend, stateful ones included. -/
structure World where
  env : String → String
  CreateInventory : Int → Except Error Int
  CreateHost : Int → HostDetails → Except Error Int
  DeleteHost : Int → Option Error
  DeleteInventory : Int → Option Error
  LaunchJob : Int → Int → Int → ExtraVars → Except Error Int
  PollJob : Int → Int → Int → Option Error

/-- The observable outcome of a run of `Provision`: the returned error, the calls in
the order they were issued, and the lines sent to the UI. -/
structure Run where
  err : Option Error
  events : List Event
  ui : List UiLine
  deriving DecidableEq, Repr

/-- The calls of a run, in order. -/
def Run.calls (r : Run) : List Call := r.events.map Event.call

/-- The deferred function of `Provision` (`src/provisioner.go`, lines 59-69). -/
def deferredCleanup (cfg : Config) (w : World) (invID hostID : Int) :
    List Event × List UiLine :=
  if !cfg.KeepTempInventory then
    let e1 := w.DeleteHost hostID
    let u1 := match e1 with
      | some err => [UiLine.Errorf "Failed to delete host %d: %s" [hostID] err]
      | none => []
    let e2 := w.DeleteInventory invID
    let u2 := match e2 with
      | some err => [UiLine.Errorf "Failed to delete inventory %d: %s" [invID] err]
      | none => []
    ([⟨.DeleteHost hostID, e1⟩, ⟨.DeleteInventory invID, e2⟩],
     u1 ++ u2 ++ [UiLine.Message "Cleaned up inventory %d and host %d" [invID, hostID]])
  else ([], [])

/-- Lines 74-87 of `Provision`: launch the job, then wait for it. -/
def launchAndPoll (cfg : Config) (w : World) (invID : Int) : Run :=
  let launch := Call.LaunchJob invID cfg.JobTemplateID cfg.WorkflowTemplateID cfg.ExtraVars
  match w.LaunchJob invID cfg.JobTemplateID cfg.WorkflowTemplateID cfg.ExtraVars with
  | .error err => ⟨some err, [⟨launch, some err⟩], [.Error err]⟩
  | .ok jobID =>
    let poll := Call.PollJob jobID cfg.Timeout cfg.PollInterval
    match w.PollJob jobID cfg.Timeout cfg.PollInterval with
    | some err =>
      ⟨some err, [⟨launch, none⟩, ⟨poll, some err⟩],
       [.Message "Launched AAP job %d" [jobID], .Error err]⟩
    | none =>
      ⟨none, [⟨launch, none⟩, ⟨poll, none⟩],
       [.Message "Launched AAP job %d" [jobID], .Message "AAP job completed successfully" []]⟩

/-- The method `Provisioner.Provision` of `src/provisioner.go`. The deferred cleanup is
registered only once both creations have succeeded, and runs after the result of the
launch-and-wait part has been fixed. -/
def Provision (cfg : Config) (w : World) : Run :=
  if cfg.DynamicInventory then
    match getHostDetails w.env with
    | .error err => ⟨some err, [⟨.getHostDetails, some err⟩], [.Error err]⟩
    | .ok hostDetails =>
      match w.CreateInventory cfg.OrganizationID with
      | .error err =>
        ⟨some err, [⟨.getHostDetails, none⟩, ⟨.CreateInventory cfg.OrganizationID, some err⟩],
         [.Error err]⟩
      | .ok invID =>
        match w.CreateHost invID hostDetails with
        | .error err =>
          ⟨some err,
           [⟨.getHostDetails, none⟩, ⟨.CreateInventory cfg.OrganizationID, none⟩,
            ⟨.CreateHost invID hostDetails, some err⟩],
           [.Message "Created temporary inventory %d" [invID], .Error err]⟩
        | .ok hostID =>
          let body := launchAndPoll cfg w invID
          let cleanup := deferredCleanup cfg w invID hostID
          ⟨body.err,
           [⟨.getHostDetails, none⟩, ⟨.CreateInventory cfg.OrganizationID, none⟩,
            ⟨.CreateHost invID hostDetails, none⟩] ++ body.events ++ cleanup.1,
           [.Message "Created temporary inventory %d" [invID],
            .Message "Created temporary host %d" [hostID]] ++ body.ui ++ cleanup.2⟩
  else
    launchAndPoll cfg w cfg.InventoryID

/-- The inventory the job is launched against, and the fact that the run gets as far
as the launch: the configured inventory when `dynamic_inventory` is false, the created
one when discovery and both creations succeeded. -/
def ReachesLaunch (cfg : Config) (w : World) (invID : Int) : Prop :=
  (cfg.DynamicInventory = false ∧ invID = cfg.InventoryID) ∨
  (cfg.DynamicInventory = true ∧ ∃ d hostID, getHostDetails w.env = .ok d ∧
    w.CreateInventory cfg.OrganizationID = .ok invID ∧ w.CreateHost invID d = .ok hostID)

/-! ### Concrete runs -/

/-- An environment with every connection variable that discovery needs. -/
def envComplete : String → String := fun name =>
  if name = "PACKER_SSH_HOST" then "10.0.0.5"
  else if name = "PACKER_SSH_PORT" then "22"
  else if name = "PACKER_SSH_USERNAME" then "packer"
  else if name = "PACKER_SSH_KEY_FILE" then "/tmp/packer.key"
  else ""

/-- The host details discovered in `envComplete`. -/
def hostComplete : HostDetails :=
  { Host := "10.0.0.5", Port := 22, Username := "packer",
    KeyFile := "/tmp/packer.key", Password := "" }

/-- An environment in which no connection variable is set. -/
def envEmpty : String → String := fun _ => ""

/-- A backend on which every call succeeds: inventory id 123, host id 456, job id 999. -/
def worldAllOK : World :=
  { env := envComplete
    CreateInventory := fun _ => .ok 123
    CreateHost := fun _ _ => .ok 456
    DeleteHost := fun _ => none
    DeleteInventory := fun _ => none
    LaunchJob := fun _ _ _ _ => .ok 999
    PollJob := fun _ _ _ => none }

/-- A backend on which the job fails and both deletes fail too. -/
def worldJobAndDeletesFail : World :=
  { worldAllOK with
    PollJob := fun _ _ _ => some (.Errorf "job %d failed" [999])
    DeleteHost := fun _ => some (.New "failed to delete host")
    DeleteInventory := fun _ => some (.New "failed to delete inventory") }

/-- A backend that creates inventory 123 and then rejects the host. -/
def worldHostRejected : World :=
  { worldAllOK with CreateHost := fun _ _ => .error (.New "failed to create host") }

/-- The backend `worldAllOK` seen from a process without connection variables. -/
def worldNoEnv : World := { worldAllOK with env := envEmpty }

/-- A dynamic-inventory configuration that does not keep the temporary inventory. -/
def cfgDynamic : Config :=
  { TowerHost := "https://aap.example.com", Username := "admin", Password := "secret",
    JobTemplateID := 42, InventoryID := 0, OrganizationID := 1, DynamicInventory := true,
    KeepTempInventory := false, ExtraVars := some [("custom", .str "value")],
    Timeout := 30 * Minute, PollInterval := 5 * Second, WorkflowTemplateID := 0 }

/-- A configuration that names an existing inventory. -/
def cfgStatic : Config :=
  { cfgDynamic with DynamicInventory := false, InventoryID := 7, OrganizationID := 0 }

end main

namespace client

/-! ## Package `client`: the wait loop of `src/pkgs/client/client.go` -/

/-- The outcome of one status fetch `c.client.R().SetContext(ctx).SetResult(&result).Get(...)`:
a transport error (`err != nil`), a response with an error HTTP status
(`resp.IsError()`, which leaves `result` untouched), or a response whose decoded body
gives `result.Status` and `result.Failed`. -/
inductive Response where
  | transportError (err : Error)
  | httpError (status : Nat)
  | ok (Status : String) (Failed : Bool)
  deriving DecidableEq, Repr

/-- What one pass through the `select` of `PollJob` observes: `ctx.Done()` with the
cause `ctx.Err()`, or the timer `time.After(pollInterval)`, after which the status is
fetched; `late` is the time spent beyond the poll interval (scheduling and the fetch)
before the loop reads the clock again. -/
inductive Wake where
  | ctxDone (cause : Error)
  | timer (resp : Response) (late : Nat)
  deriving DecidableEq, Repr

/-- What `PollJob` returned: its error (`none` for nil), the number of status fetches
it issued, and the time elapsed since `start` at the last clock reading. -/
structure PollResult where
  err : Option Error
  fetches : Nat
  elapsed : Int
  deriving DecidableEq, Repr

/-- The time that passes in one iteration that takes the timer branch: the timer fires
after `pollInterval` (at once when it is not positive), plus `late`. -/
def iterationTime (pollInterval : Int) (late : Nat) : Int := max pollInterval 0 + late

/-- The `for` loop of `AAPClient.PollJob`, with the time elapsed since `start` and the
number of fetches issued so far. `none` means the loop is still blocked in `select`
when the given events are used up. -/
def PollJob.loop (jobID timeout pollInterval : Int) : List Wake → Int → Nat → Option PollResult
  | [], _, _ => none
  | .ctxDone cause :: _, elapsed, fetches => some ⟨some cause, fetches, elapsed⟩
  | .timer resp late :: rest, elapsed, fetches =>
    let now := elapsed + iterationTime pollInterval late
    match resp with
    | .transportError err =>
      some ⟨some (.ErrorfErr "failed to poll job %d: %s" [jobID] err), fetches + 1, now⟩
    | .httpError _ =>
      some ⟨some (.ErrorfNil "failed to poll job %d: %s" [jobID]), fetches + 1, now⟩
    | .ok status failed =>
      if status = "successful" then some ⟨none, fetches + 1, now⟩
      else if status = "failed" ∨ failed = true then
        some ⟨some (.Errorf "job %d failed" [jobID]), fetches + 1, now⟩
      else if now > timeout then
        some ⟨some (.New "timeout waiting for job completion"), fetches + 1, now⟩
      else PollJob.loop jobID timeout pollInterval rest now (fetches + 1)

/-- The method `AAPClient.PollJob` of `src/pkgs/client/client.go`, run against the
sequence of events its `select` observes. -/
def PollJob (jobID timeout pollInterval : Int) (wakes : List Wake) : Option PollResult :=
  PollJob.loop jobID timeout pollInterval wakes 0 0

/-- A fetch at which the loop returns whatever the clock says: an error, status
"successful", status "failed", or the failed flag. -/
def Response.stops : Response → Bool
  | .transportError _ => true
  | .httpError _ => true
  | .ok status failed => status = "successful" || status = "failed" || failed

/-- A wake-up after which the loop goes on waiting unless the timeout has passed: the
timer fired and the fetch was not one that stops the loop. -/
def Wake.keepsWaiting : Wake → Bool
  | .ctxDone _ => false
  | .timer resp _ => !resp.stops

/-- The time that passes while the loop runs through the given events. -/
def elapsedOver (pollInterval : Int) : List Wake → Int
  | [] => 0
  | .ctxDone _ :: rest => elapsedOver pollInterval rest
  | .timer _ late :: rest => iterationTime pollInterval late + elapsedOver pollInterval rest

/-- An idealised sequence of `n` wake-ups of the backend that always answers status
"running" with the failed flag unset: every iteration takes exactly the poll interval,
nothing being spent on the timer or the fetch. A real run only approaches it from
above; see `runningLate`. -/
def alwaysRunning (n : Nat) : List Wake := List.replicate n (.timer (.ok "running" false) 0)

/-- The backend that always answers status "running" with the failed flag unset, with
no cancellation: one timer wake-up per entry of `lates`, the entry being the time that
iteration takes beyond the poll interval (timer scheduling and the fetch). -/
def runningLate (lates : List Nat) : List Wake :=
  lates.map (fun late => .timer (.ok "running" false) late)

/-- The largest `time.Duration` (`math.MaxInt64` nanoseconds). -/
def MaxDuration : Int := 2 ^ 63 - 1

/-- The reading `time.Since(start)` when the time truly elapsed is `elapsed`: it
saturates at the largest duration. -/
def Since (elapsed : Int) : Int := min elapsed MaxDuration

end client

namespace config

/-! ## Package `config`: `src/pkgs/config/config.go` -/

/-- The struct `Config` of `src/pkgs/config/config.go`. -/
structure Config where
  TowerHost : String
  Username : String
  Password : String
  AccessToken : String
  JobTemplateID : Int
  InventoryID : Int
  OrganizationID : Int
  DynamicInventory : Bool
  KeepTempInventory : Bool
  KeepTempCredential : Bool
  CreateCredential : Bool
  ExtraVars : ExtraVars
  Timeout : Int
  PollInterval : Int
  WorkflowTemplateID : Int
  InsecureSkipVerify : Bool
  deriving DecidableEq, Repr

/-- The method `(*Config).Validate`: the returned error (`none` for nil) and the
configuration as the call leaves it. The username and password checks, nested under
`c.AccessToken == ""` in the source, are written with that condition repeated. -/
def Config.Validate (c : Config) : Option Error × Config :=
  if c.TowerHost = "" then (some (.New "tower_host must be set"), c)
  else if !HasPrefix c.TowerHost "http://" && !HasPrefix c.TowerHost "https://" then
    (some (.New "tower_host must start with http:// or https://"), c)
  else if c.AccessToken = "" ∧ c.Username = "" then
    (some (.New "username must be set when access_token is not provided"), c)
  else if c.AccessToken = "" ∧ c.Password = "" then
    (some (.New "password must be set when access_token is not provided"), c)
  else if c.JobTemplateID = 0 ∧ c.WorkflowTemplateID = 0 then
    (some (.New "either job_template_id or workflow_template_id must be set"), c)
  else if c.DynamicInventory = true ∧ c.OrganizationID = 0 then
    (some (.New "organization_id must be set when dynamic_inventory is true"), c)
  else
    let c := if c.Timeout = 0 then { c with Timeout := 15 * Minute } else c
    let c := if c.PollInterval = 0 then { c with PollInterval := 10 * Second } else c
    let c := if c.ExtraVars = none then { c with ExtraVars := some [] } else c
    let c := if !c.CreateCredential then { c with CreateCredential := true } else c
    (none, c)

/-! ### Concrete configurations -/

/-- The first case of the test table: username and password, job template 42. -/
def cfgJobTemplate : Config :=
  { TowerHost := "https://aap.example.com", Username := "admin", Password := "secret",
    AccessToken := "", JobTemplateID := 42, InventoryID := 0, OrganizationID := 1,
    DynamicInventory := false, KeepTempInventory := false, KeepTempCredential := false,
    CreateCredential := false, ExtraVars := none, Timeout := 0, PollInterval := 0,
    WorkflowTemplateID := 0, InsecureSkipVerify := false }

/-- The last case of the test table: workflow template 42 and no job template. -/
def cfgWorkflowTemplate : Config :=
  { cfgJobTemplate with JobTemplateID := 0, WorkflowTemplateID := 42 }

/-- The case of the test table with neither a job template nor a workflow template. -/
def cfgNoTemplate : Config := { cfgJobTemplate with JobTemplateID := 0 }

end config

namespace main

/-! ### `Config.Validate` of `src/config.go` -/

/-- The method `(*Config).Validate` of `src/config.go`, the configuration type that
`Provisioner.Configure` validates: the returned error (`none` for nil) and the
configuration as the call leaves it. -/
def Config.Validate (c : Config) : Option Error × Config :=
  if c.TowerHost = "" then (some (.New "tower_host must be set"), c)
  else if !HasPrefix c.TowerHost "http://" && !HasPrefix c.TowerHost "https://" then
    (some (.New "tower_host must start with http:// or https://"), c)
  else if c.Username = "" then (some (.New "username must be set"), c)
  else if c.Password = "" then (some (.New "password must be set"), c)
  else if c.JobTemplateID = 0 ∧ c.WorkflowTemplateID = 0 then
    (some (.New "either job_template_id or workflow_template_id must be set"), c)
  else if c.DynamicInventory = true ∧ c.OrganizationID = 0 then
    (some (.New "organization_id must be set when dynamic_inventory is true"), c)
  else
    let c := if c.Timeout = 0 then { c with Timeout := 30 * Minute } else c
    let c := if c.PollInterval = 0 then { c with PollInterval := 5 * Second } else c
    let c := if c.ExtraVars = none then { c with ExtraVars := some [] } else c
    (none, c)

/-- A configuration that leaves `timeout` and `poll_interval` unset. -/
def cfgUnsetDurations : Config :=
  { cfgStatic with Timeout := 0, PollInterval := 0 }

end main

namespace config

/-! ### The parts of `Validate`, and the test table -/

/-- Lines 54-67 of `Validate` on their own: the defaults written once every check has
passed. -/
def Config.defaulted (c : Config) : Config :=
  let c := if c.Timeout = 0 then { c with Timeout := 15 * Minute } else c
  let c := if c.PollInterval = 0 then { c with PollInterval := 10 * Second } else c
  let c := if c.ExtraVars = none then { c with ExtraVars := some [] } else c
  let c := if !c.CreateCredential then { c with CreateCredential := true } else c
  c

/-- The acceptance rules in the words of the specification: an http or https
`tower_host`; an access token, or a username with a password; a job template or a
workflow template; and an organization when the inventory is dynamic. -/
def Config.Acceptable (c : Config) : Prop :=
  (HasPrefix c.TowerHost "http://" = true ∨ HasPrefix c.TowerHost "https://" = true) ∧
  (c.AccessToken ≠ "" ∨ (c.Username ≠ "" ∧ c.Password ≠ "")) ∧
  (c.JobTemplateID ≠ 0 ∨ c.WorkflowTemplateID ≠ 0) ∧
  (c.DynamicInventory = false ∨ c.OrganizationID ≠ 0)

/-- The zero value of `Config`, which the cases of the test table start from. -/
def cfgZero : Config :=
  { TowerHost := "", Username := "", Password := "", AccessToken := "", JobTemplateID := 0,
    InventoryID := 0, OrganizationID := 0, DynamicInventory := false,
    KeepTempInventory := false, KeepTempCredential := false, CreateCredential := false,
    ExtraVars := none, Timeout := 0, PollInterval := 0, WorkflowTemplateID := 0,
    InsecureSkipVerify := false }

/-- The ten cases of `TestConfig_Validate`, each with its `wantErr`. -/
def testTable : List (Config × Bool) :=
  [ ({ cfgZero with
        TowerHost := "https://aap.example.com", Username := "admin",
        Password := "secret", JobTemplateID := 42, OrganizationID := 1 }, false),
    ({ cfgZero with
        TowerHost := "https://aap.example.com", AccessToken := "token123",
        JobTemplateID := 42, OrganizationID := 1 }, false),
    ({ cfgZero with
        Username := "admin", Password := "secret", JobTemplateID := 42,
        OrganizationID := 1 }, true),
    ({ cfgZero with
        TowerHost := "ftp://aap.example.com", Username := "admin",
        Password := "secret", JobTemplateID := 42, OrganizationID := 1 }, true),
    ({ cfgZero with
        TowerHost := "https://aap.example.com", JobTemplateID := 42,
        OrganizationID := 1 }, true),
    ({ cfgZero with
        TowerHost := "https://aap.example.com", Password := "secret",
        JobTemplateID := 42, OrganizationID := 1 }, true),
    ({ cfgZero with
        TowerHost := "https://aap.example.com", Username := "admin",
        JobTemplateID := 42, OrganizationID := 1 }, true),
    ({ cfgZero with
        TowerHost := "https://aap.example.com", Username := "admin",
        Password := "secret", OrganizationID := 1 }, true),
    ({ cfgZero with
        TowerHost := "https://aap.example.com", Username := "admin",
        Password := "secret", JobTemplateID := 42, DynamicInventory := true }, true),
    ({ cfgZero with
        TowerHost := "https://aap.example.com", Username := "admin",
        Password := "secret", WorkflowTemplateID := 42, OrganizationID := 1 }, false) ]

/-- A dynamic-inventory configuration without an organization. -/
def cfgDynamicNoOrg : Config :=
  { cfgJobTemplate with DynamicInventory := true, OrganizationID := 0 }

/-- A configuration that sets both a job template and a workflow template. -/
def cfgBothTemplates : Config := { cfgJobTemplate with WorkflowTemplateID := 84 }

/-- The configuration of `TestConfig_Validate_CustomDefaults`. -/
def cfgCustom : Config :=
  { cfgJobTemplate with
    Timeout := 30 * Minute, PollInterval := 5 * Second,
    ExtraVars := some [("custom", .str "value")] }

end config

namespace client

/-! ### Requests built by `src/pkgs/client/client.go` -/

/-- A value placed in a request body or in the host variables (`interface{}` in Go):
a string, an `int`, a `[]int`, or an `extra_vars` mapping. -/
inductive BodyValue where
  | str (s : String)
  | int (n : Int)
  | ints (ns : List Int)
  | vars (m : ExtraVars)
  deriving DecidableEq, Repr

/-- A Go `map[string]interface{}` under construction, as its entries. -/
abbrev Fields := List (String × BodyValue)

/-- The assignment `m[key] = value` on a Go map: replaces the entry of `key` or adds one. -/
def setField : Fields → String → BodyValue → Fields
  | [], key, value => [(key, value)]
  | (k, v) :: rest, key, value =>
    if k = key then (key, value) :: rest else (k, v) :: setField rest key value

/-- The lookup `m[key]` on a Go map, `none` when the key is absent. -/
def getField : Fields → String → Option BodyValue
  | [], _ => none
  | (k, v) :: rest, key => if k = key then some v else getField rest key

/-- The struct `HostDetails` of `src/pkgs/client/client.go`. -/
structure HostDetails where
  Host : String
  Port : Int
  Username : String
  Password : String
  deriving DecidableEq, Repr

/-- Lines 85-111 of `AAPClient.CreateHost`: the map `hostVars` that the method encodes
into the `variables` field of the host. -/
def hostVars (details : HostDetails) (credentialType : String) : Fields :=
  let hostVars : Fields :=
    [("ansible_host", .str details.Host), ("ansible_port", .int details.Port),
     ("ansible_user", .str details.Username)]
  if details.Port = 5985 ∨ details.Port = 5986 ∨ credentialType = "winrm_password" then
    let hostVars := setField hostVars "ansible_connection" (.str "winrm")
    let hostVars := setField hostVars "ansible_winrm_server_cert_validation" (.str "ignore")
    let hostVars := setField hostVars "ansible_winrm_transport" (.str "basic")
    let hostVars := setField hostVars "ansible_become_method" (.str "runas")
    let hostVars := setField hostVars "ansible_become" (.str "yes")
    let hostVars := setField hostVars "ansible_become_user" (.str "Administrator")
    if details.Port = 5985 then setField hostVars "ansible_winrm_scheme" (.str "http")
    else if details.Port = 5986 then setField hostVars "ansible_winrm_scheme" (.str "https")
    else hostVars
  else
    setField hostVars "ansible_connection" (.str "ssh")

/-- A request handed to the HTTP client: the path and the body map. -/
structure Request where
  path : String
  body : Fields
  deriving DecidableEq, Repr

/-- What the HTTP client gives back: a transport error (`err != nil`) or a response with
its status code and body text. -/
inductive Reply where
  | transportError (err : Error)
  | response (status : Nat) (body : String)
  deriving DecidableEq, Repr

/-- Lines 402-426 of `AAPClient.LaunchJob`: the body map `launch` and the endpoint of the
POST; `%d` prints the identifier in decimal. -/
def launchRequest (invID jobTemplateID workflowTemplateID credentialID : Int)
    (extraVars : ExtraVars) : Request :=
  let launch : Fields := [("inventory", .int invID), ("extra_vars", .vars extraVars)]
  let launch :=
    if credentialID ≠ 0 then setField launch "credentials" (.ints [credentialID]) else launch
  if workflowTemplateID ≠ 0 then
    { path := "/api/controller/v2/workflow_job_templates/" ++ toString workflowTemplateID
        ++ "/launch/"
      body := setField launch "workflow_template" (.int workflowTemplateID) }
  else
    { path := "/api/controller/v2/job_templates/" ++ toString jobTemplateID ++ "/launch/"
      body := setField launch "job_template" (.int jobTemplateID) }

/-- The method `AAPClient.LaunchJob`: `post` is the HTTP client, `unmarshalJob` the
decoding of the `job` field of the response body by `json.Unmarshal`. -/
def LaunchJob (post : Request → Reply) (unmarshalJob : String → Except Error Int)
    (invID jobTemplateID workflowTemplateID credentialID : Int) (extraVars : ExtraVars) :
    Except Error Int :=
  match post (launchRequest invID jobTemplateID workflowTemplateID credentialID extraVars) with
  | .transportError err => .error (.ErrorfErr "failed to launch job: %s" [] err)
  | .response status body =>
    if status > 399 then
      .error (.ErrorfStrs "failed to launch job: %s (status: %d)" [body] [status])
    else
      match unmarshalJob body with
      | .error err => .error (.ErrorfErr "failed to parse job launch response: %s" [] err)
      | .ok job => .ok job

/-! ### Credential types -/

/-- One entry of the credential-type listing. -/
structure CredentialType where
  ID : Int
  Name : String
  deriving DecidableEq, Repr

/-- Go `strings.Join`. -/
def Join : List String → String → String
  | [], _ => ""
  | [a], _ => a
  | a :: b :: rest, sep => a ++ sep ++ Join (b :: rest) sep

/-- The first loop of `GetCredentialTypeID`: the id of the first entry with the name. -/
def findCredentialTypeID : List CredentialType → String → Option Int
  | [], _ => none
  | ct :: rest, name => if ct.Name = name then some ct.ID else findCredentialTypeID rest name

/-- The text `fmt.Sprintf("%s (ID: %d)", ct.Name, ct.ID)` of one available type. -/
def describeCredentialType (ct : CredentialType) : String :=
  ct.Name ++ " (ID: " ++ toString ct.ID ++ ")"

/-- The method `AAPClient.GetCredentialTypeID`; `credTypes` is what
`c.GetCredentialTypes(ctx)` returned. -/
def GetCredentialTypeID (credTypes : Except Error (List CredentialType)) (name : String) :
    Except Error Int :=
  match credTypes with
  | .error err => .error err
  | .ok credTypes =>
    match findCredentialTypeID credTypes name with
    | some id => .ok id
    | none =>
      .error (.ErrorfStrs "credential type '%s' not found. Available types: %s"
        [name, Join (credTypes.map describeCredentialType) ", "] [])

/-- The listing of `TestAAPClient_GetCredentialTypeID`. -/
def listedTypes : List CredentialType :=
  [⟨4, "Machine"⟩, ⟨2, "Source Control"⟩, ⟨3, "Vault"⟩]

end client

namespace client

/-! ### Inventory creation and the paginated listing -/

/-- The method `Response.IsError` of the HTTP library: a status code above 399. -/
def IsError (status : Nat) : Bool := decide (status > 399)

/-- Lines 51-60 of `AAPClient.CreateInventory`: the request; `now` is
`time.Now().Unix()`. -/
def inventoryRequest (now orgID : Int) : Request :=
  { path := "/api/controller/v2/inventories/"
    body := [("name", .str ("packer-inv-" ++ toString now)),
             ("description", .str "Temporary inventory for packer provisioning"),
             ("organization", .int orgID)] }

/-- The method `AAPClient.CreateInventory`: the returned identifier and error (`none`
for nil). `post` is the HTTP client and `unmarshalID` the decoding of the `id` field of
the response body by `json.Unmarshal` (zero when the field is absent). -/
def CreateInventory (post : Request → Reply) (unmarshalID : String → Except Error Int)
    (now orgID : Int) : Int × Option Error :=
  match post (inventoryRequest now orgID) with
  | .transportError err => (0, some (.ErrorfErr "failed to create inventory: %s" [] err))
  | .response status body =>
    if IsError status then
      (0, some (.ErrorfStrs "failed to create inventory: %s (status: %d)" [body] [status]))
    else
      match unmarshalID body with
      | .error err =>
        (0, some (.ErrorfErr "failed to parse inventory response: %s" [] err))
      | .ok id =>
        if id = 0 then
          (0, some (.ErrorfStrs "failed to create inventory. Response: %s" [body] []))
        else (id, none)

/-- One decoded page of the credential-type listing: its `results` and its `next`
cursor (`none` for JSON null or an absent field). -/
structure Page where
  Results : List CredentialType
  Next : Option String
  deriving DecidableEq, Repr

/-- The second part of `strings.SplitN(s, sep, 2)`: what follows the first occurrence of
`sep` in `s`, `none` when `sep` does not occur. -/
def afterFirst (sep : List Char) : List Char → Option (List Char)
  | [] => if sep.isPrefixOf [] then some [] else none
  | c :: rest =>
    if sep.isPrefixOf (c :: rest) then some ((c :: rest).drop sep.length)
    else afterFirst sep rest

/-- Lines 212-227 of `GetCredentialTypes`: the URL the loop goes on with after a page,
empty when the loop is to stop. -/
def nextURL (next : Option String) : String :=
  match next with
  | none => ""
  | some n =>
    if n = "" then ""
    else if HasPrefix n "http" then
      match afterFirst "/api/".toList n.toList with
      | some rest => "/api/" ++ String.mk rest
      | none => ""
    else n

/-- What `GetCredentialTypes` returned, with the URLs it fetched, in order. -/
structure Listing where
  result : Except Error (List CredentialType)
  fetched : List String
  deriving DecidableEq, Repr

/-- The loop `for url != ""` of `GetCredentialTypes`, with the results gathered and the
URLs fetched so far; `get` is the HTTP client and `unmarshal` the decoding of a page.
The first argument bounds the number of iterations; `none` means it was used up. -/
def GetCredentialTypes.loop (get : String → Reply) (unmarshal : String → Except Error Page) :
    Nat → String → List CredentialType → List String → Option Listing
  | 0, url, allResults, fetched =>
    if url = "" then some ⟨.ok allResults, fetched⟩ else none
  | fuel + 1, url, allResults, fetched =>
    if url = "" then some ⟨.ok allResults, fetched⟩
    else
      match get url with
      | .transportError err =>
        some ⟨.error (.ErrorfErr "failed to fetch credential types: %s" [] err),
          fetched ++ [url]⟩
      | .response status body =>
        if IsError status then
          some ⟨.error (.ErrorfStrs "failed to fetch credential types: %s (status: %d)"
            [body] [status]), fetched ++ [url]⟩
        else
          match unmarshal body with
          | .error err =>
            some ⟨.error (.ErrorfErr "failed to parse credential types response: %s" [] err),
              fetched ++ [url]⟩
          | .ok page =>
            GetCredentialTypes.loop get unmarshal fuel (nextURL page.Next)
              (allResults ++ page.Results) (fetched ++ [url])

/-- The method `AAPClient.GetCredentialTypes`, run for at most `fuel` iterations. -/
def GetCredentialTypes (get : String → Reply) (unmarshal : String → Except Error Page)
    (fuel : Nat) : Option Listing :=
  GetCredentialTypes.loop get unmarshal fuel
    "/api/controller/v2/credential_types/?page_size=200" [] []

/-- A fetch of `url` that succeeds with the page `page`: a response without an error
status whose body decodes to it. -/
def Serves (get : String → Reply) (unmarshal : String → Except Error Page) (url : String)
    (page : Page) : Prop :=
  ∃ status body, get url = .response status body ∧ IsError status = false ∧
    unmarshal body = .ok page

/-- A fetch of `url` that fails: a transport error, an error status, or a body that
cannot be decoded. -/
def FailsAt (get : String → Reply) (unmarshal : String → Except Error Page) (url : String) :
    Prop :=
  (∃ err, get url = .transportError err) ∨
  (∃ status body, get url = .response status body ∧
    (IsError status = true ∨ ∃ err, unmarshal body = .error err))

/-- The pages form a chain from `url`: each is served at the URL the loop derives from
the cursor of the one before, and the loop derives no URL from the cursor of the last. -/
def Chain (get : String → Reply) (unmarshal : String → Except Error Page) :
    String → List Page → Prop
  | url, [] => url = ""
  | url, page :: rest =>
    url ≠ "" ∧ Serves get unmarshal url page ∧ Chain get unmarshal (nextURL page.Next) rest

/-- The URLs of a chain of pages that starts at `url`. -/
def chainURLs : String → List Page → List String
  | _, [] => []
  | url, page :: rest => url :: chainURLs (nextURL page.Next) rest

/-- The pages are served one after the other from `url`, whatever follows the last. -/
def ServedFrom (get : String → Reply) (unmarshal : String → Except Error Page) :
    String → List Page → Prop
  | _, [] => True
  | url, page :: rest =>
    url ≠ "" ∧ Serves get unmarshal url page ∧
      ServedFrom get unmarshal (nextURL page.Next) rest

/-- The URL the loop holds after the given pages, starting from `url`. -/
def urlAfter : String → List Page → String
  | url, [] => url
  | _, page :: rest => urlAfter (nextURL page.Next) rest

/-- The results of the pages, concatenated in page order. -/
def resultsOf : List Page → List CredentialType
  | [] => []
  | page :: rest => page.Results ++ resultsOf rest

/-! ### Concrete servers -/

/-- The URL `GetCredentialTypes` starts from. -/
def listingStart : String := "/api/controller/v2/credential_types/?page_size=200"

/-- A decoder for three page bodies: the first page points to the second by an
absolute URL, the second to the third by a relative one, the third ends the listing. -/
def unmarshalPages (body : String) : Except Error Page :=
  if body = "page1" then
    .ok ⟨[⟨4, "Machine"⟩],
      some "https://aap.example.com/api/controller/v2/credential_types/?page=2"⟩
  else if body = "page2" then
    .ok ⟨[⟨2, "Source Control"⟩], some "/api/controller/v2/credential_types/?page=3"⟩
  else if body = "page3" then .ok ⟨[⟨3, "Vault"⟩], none⟩
  else if body = "page1-foreign" then
    .ok ⟨[⟨4, "Machine"⟩], some "https://aap.example.com/v2/credential_types/?page=2"⟩
  else .error (.New "unexpected end of JSON input")

/-- A server with the three pages. -/
def getThreePages (url : String) : Reply :=
  if url = listingStart then .response 200 "page1"
  else if url = "/api/controller/v2/credential_types/?page=2" then .response 200 "page2"
  else if url = "/api/controller/v2/credential_types/?page=3" then .response 200 "page3"
  else .response 404 "not found"

/-- The same server with the second page failing. -/
def getSecondPageFails (url : String) : Reply :=
  if url = "/api/controller/v2/credential_types/?page=2" then .response 500 "server error"
  else getThreePages url

/-- A server whose first page names its successor by an absolute URL without "/api/". -/
def getForeignNext (url : String) : Reply :=
  if url = listingStart then .response 200 "page1-foreign"
  else .response 200 "page2"

/-- A decoder of inventory responses that knows the body of the test. -/
def unmarshalTestID (body : String) : Except Error Int :=
  if body = "\x7b\"id\":123\x7d" then .ok 123
  else if body = "\x7b\x7d" then .ok 0
  else .error (.New "invalid character")

end client

/-! ## The provisioning workflow -/

namespace main

/-- Neither the launch nor the wait is a create or a delete, and the launch is the
first and only `LaunchJob` of `launchAndPoll`. -/
theorem launchAndPoll_calls (cfg : Config) (w : World) (invID : Int) :
    (∀ c ∈ (launchAndPoll cfg w invID).calls,
      c.isDelete = false ∧ c.isCreateInventory = false ∧ c.isCreateHost = false ∧
        c.isRemote = true) ∧
    (launchAndPoll cfg w invID).calls.filter Call.isLaunchJob =
      [.LaunchJob invID cfg.JobTemplateID cfg.WorkflowTemplateID cfg.ExtraVars] := by
  unfold launchAndPoll Run.calls
  cases hl : w.LaunchJob invID cfg.JobTemplateID cfg.WorkflowTemplateID cfg.ExtraVars with
  | error e => simp [Call.isDelete, Call.isCreateInventory, Call.isCreateHost,
      Call.isLaunchJob, Call.isRemote]
  | ok jobID =>
    cases hp : w.PollJob jobID cfg.Timeout cfg.PollInterval <;>
      simp [hp, Call.isDelete, Call.isCreateInventory, Call.isCreateHost, Call.isLaunchJob,
        Call.isRemote]

/-- The error of `launchAndPoll` is the first error in its log. -/
theorem launchAndPoll_err (cfg : Config) (w : World) (invID : Int) :
    (launchAndPoll cfg w invID).err =
      ((launchAndPoll cfg w invID).events.filter (fun e => !e.call.isDelete)).findSome?
        Event.err := by
  unfold launchAndPoll
  cases hl : w.LaunchJob invID cfg.JobTemplateID cfg.WorkflowTemplateID cfg.ExtraVars with
  | error e => simp [Call.isDelete]
  | ok jobID =>
    cases hp : w.PollJob jobID cfg.Timeout cfg.PollInterval <;> simp [hp, Call.isDelete]

/-- The calls of a dynamic-inventory run whose two creations succeeded. -/
theorem Provision_calls_created (cfg : Config) (w : World) (d : HostDetails)
    (invID hostID : Int)
    (hdyn : cfg.DynamicInventory = true)
    (hd : getHostDetails w.env = .ok d)
    (hinv : w.CreateInventory cfg.OrganizationID = .ok invID)
    (hhost : w.CreateHost invID d = .ok hostID) :
    (Provision cfg w).calls =
      [.getHostDetails, .CreateInventory cfg.OrganizationID, .CreateHost invID d]
        ++ (launchAndPoll cfg w invID).calls
        ++ (if cfg.KeepTempInventory = true then []
            else [.DeleteHost hostID, .DeleteInventory invID]) := by
  cases hk : cfg.KeepTempInventory <;>
    simp [Provision, hdyn, hd, hinv, hhost, deferredCleanup, Run.calls, hk]

/-- C1: in a dynamic-inventory run whose inventory and host creation both succeeded,
with `keep_temp_inventory` false the delete calls of the run are exactly
`DeleteHost(hostID)` then `DeleteInventory(invID)`, and they are the last two calls of
the run, after every other call (whatever `LaunchJob`, `PollJob` and the deletes
return); with `keep_temp_inventory` true the run issues no delete call. -/
theorem Provision_cleanup_order (cfg : Config) (w : World) (d : HostDetails)
    (invID hostID : Int)
    (hdyn : cfg.DynamicInventory = true)
    (hd : getHostDetails w.env = .ok d)
    (hinv : w.CreateInventory cfg.OrganizationID = .ok invID)
    (hhost : w.CreateHost invID d = .ok hostID) :
    (cfg.KeepTempInventory = false →
      (Provision cfg w).calls.filter Call.isDelete
          = [.DeleteHost hostID, .DeleteInventory invID] ∧
      (Provision cfg w).calls
          = (Provision cfg w).calls.filter (fun c => !c.isDelete)
              ++ [.DeleteHost hostID, .DeleteInventory invID]) ∧
    (cfg.KeepTempInventory = true →
      ∀ c ∈ (Provision cfg w).calls, c.isDelete = false) := by
  have hcalls := Provision_calls_created cfg w d invID hostID hdyn hd hinv hhost
  have hbody := (launchAndPoll_calls cfg w invID).1
  have hnone : (launchAndPoll cfg w invID).calls.filter Call.isDelete = [] := by
    rw [List.filter_eq_nil_iff]
    intro c hc
    simp [(hbody c hc).1]
  have hall : (launchAndPoll cfg w invID).calls.filter (fun c => !c.isDelete)
      = (launchAndPoll cfg w invID).calls := by
    rw [List.filter_eq_self]
    intro c hc
    simp [(hbody c hc).1]
  refine ⟨fun hk => ?_, fun hk => ?_⟩
  · rw [hcalls]
    simp only [Call.isDelete] at hall
    simp [hk, List.filter_append, hnone, hall, Call.isDelete]
  · rw [hcalls]
    intro c hc
    simp only [hk, if_true, List.append_nil, List.mem_append, List.mem_cons,
      List.mem_singleton, List.not_mem_nil, or_false] at hc
    rcases hc with (rfl | rfl | rfl) | hc
    · rfl
    · rfl
    · rfl
    · exact (hbody c hc).1

/-- C1 at a concrete run: every call succeeds except the job and the two deletes. -/
theorem Provision_cleanup_order_witness :
    (Provision cfgDynamic worldJobAndDeletesFail).calls.filter Call.isDelete
        = [.DeleteHost 456, .DeleteInventory 123] ∧
    (Provision cfgDynamic worldJobAndDeletesFail).calls
        = (Provision cfgDynamic worldJobAndDeletesFail).calls.filter (fun c => !c.isDelete)
            ++ [.DeleteHost 456, .DeleteInventory 123] :=
  (Provision_cleanup_order cfgDynamic worldJobAndDeletesFail hostComplete 123 456
    rfl (by decide) rfl rfl).1 rfl

/-- C2: on a backend that creates inventory 123 and then rejects the host, with
`keep_temp_inventory` false, `Provision` returns the host-creation error after the
calls `getHostDetails`, `CreateInventory`, `CreateHost` and issues no delete call: the
created inventory is left behind. -/
theorem Provision_host_failure_leaves_inventory :
    (Provision cfgDynamic worldHostRejected).err = some (.New "failed to create host") ∧
    (Provision cfgDynamic worldHostRejected).calls
      = [.getHostDetails, .CreateInventory 1, .CreateHost 123 hostComplete] ∧
    (Provision cfgDynamic worldHostRejected).calls.filter Call.isDelete = [] ∧
    Call.DeleteInventory 123 ∉ (Provision cfgDynamic worldHostRejected).calls := by
  decide

/-- C3: in a dynamic-inventory run in which host-detail discovery, `CreateInventory`
and `CreateHost` succeed, the calls begin with the discovery, then `CreateInventory`,
then `CreateHost`; no later call is a `CreateInventory` or a `CreateHost`, so there is
exactly one of each, in that order, and both come before every `LaunchJob` call. -/
theorem Provision_creates_once_in_order (cfg : Config) (w : World) (d : HostDetails)
    (invID hostID : Int)
    (hdyn : cfg.DynamicInventory = true)
    (hd : getHostDetails w.env = .ok d)
    (hinv : w.CreateInventory cfg.OrganizationID = .ok invID)
    (hhost : w.CreateHost invID d = .ok hostID) :
    (Provision cfg w).calls.filter Call.isCreateInventory
      = [.CreateInventory cfg.OrganizationID] ∧
    (Provision cfg w).calls.filter Call.isCreateHost = [.CreateHost invID d] ∧
    ∃ rest,
      (Provision cfg w).calls
        = .getHostDetails :: .CreateInventory cfg.OrganizationID :: .CreateHost invID d
            :: rest ∧
      (∀ c ∈ rest, c.isCreateInventory = false ∧ c.isCreateHost = false) ∧
      rest.filter Call.isLaunchJob
        = [.LaunchJob invID cfg.JobTemplateID cfg.WorkflowTemplateID cfg.ExtraVars] := by
  have hcalls := Provision_calls_created cfg w d invID hostID hdyn hd hinv hhost
  have hbody := (launchAndPoll_calls cfg w invID).1
  have hlaunch := (launchAndPoll_calls cfg w invID).2
  have htail : ∀ c ∈ (launchAndPoll cfg w invID).calls ++
      (if cfg.KeepTempInventory = true then []
       else [Call.DeleteHost hostID, Call.DeleteInventory invID]),
      c.isCreateInventory = false ∧ c.isCreateHost = false := by
    intro c hc
    rcases List.mem_append.1 hc with hc | hc
    · exact ⟨(hbody c hc).2.1, (hbody c hc).2.2.1⟩
    · cases hk : cfg.KeepTempInventory
      · simp only [hk, Bool.false_eq_true, if_false, List.mem_cons, List.mem_singleton,
          List.not_mem_nil, or_false] at hc
        rcases hc with rfl | rfl <;> exact ⟨rfl, rfl⟩
      · simp [hk] at hc
  have hfi : (launchAndPoll cfg w invID).calls.filter Call.isCreateInventory = [] := by
    rw [List.filter_eq_nil_iff]
    intro c hc
    simp [(hbody c hc).2.1]
  have hfh : (launchAndPoll cfg w invID).calls.filter Call.isCreateHost = [] := by
    rw [List.filter_eq_nil_iff]
    intro c hc
    simp [(hbody c hc).2.2.1]
  refine ⟨?_, ?_, _, ?_, htail, ?_⟩
  · rw [hcalls]
    cases hk : cfg.KeepTempInventory <;>
      simp [List.filter_append, hfi, List.filter_cons, Call.isCreateInventory]
  · rw [hcalls]
    cases hk : cfg.KeepTempInventory <;>
      simp [List.filter_append, hfh, List.filter_cons, Call.isCreateHost]
  · rw [hcalls]
    simp
  · rw [List.filter_append, hlaunch]
    cases hk : cfg.KeepTempInventory <;> simp [List.filter_cons, Call.isLaunchJob]

/-- C3 at the backend that answers inventory id 123, then host id 456. -/
theorem Provision_creates_once_in_order_witness :
    (Provision cfgDynamic worldAllOK).calls.filter Call.isCreateInventory
      = [.CreateInventory 1] ∧
    (Provision cfgDynamic worldAllOK).calls.filter Call.isCreateHost
      = [.CreateHost 123 hostComplete] :=
  have h := Provision_creates_once_in_order cfgDynamic worldAllOK hostComplete 123 456
    rfl (by decide) rfl rfl
  ⟨h.1, h.2.1⟩

/-- The error of `launchAndPoll` in terms of what the client answers: the error of
`LaunchJob` if it fails, else the error of `PollJob` if that fails, else nil. -/
theorem launchAndPoll_outcome (cfg : Config) (w : World) (invID : Int) :
    (∀ e, w.LaunchJob invID cfg.JobTemplateID cfg.WorkflowTemplateID cfg.ExtraVars = .error e →
      (launchAndPoll cfg w invID).err = some e) ∧
    (∀ jobID e,
      w.LaunchJob invID cfg.JobTemplateID cfg.WorkflowTemplateID cfg.ExtraVars = .ok jobID →
      w.PollJob jobID cfg.Timeout cfg.PollInterval = some e →
      (launchAndPoll cfg w invID).err = some e) ∧
    (∀ jobID,
      w.LaunchJob invID cfg.JobTemplateID cfg.WorkflowTemplateID cfg.ExtraVars = .ok jobID →
      w.PollJob jobID cfg.Timeout cfg.PollInterval = none →
      (launchAndPoll cfg w invID).err = none) := by
  refine ⟨fun e hl => ?_, fun jobID e hl hp => ?_, fun jobID hl hp => ?_⟩
  · simp [launchAndPoll, hl]
  · simp [launchAndPoll, hl, hp]
  · simp [launchAndPoll, hl, hp]

/-- A run that reaches the launch returns what the launch-and-wait part returns. -/
theorem Provision_err_of_reachesLaunch (cfg : Config) (w : World) (invID : Int)
    (h : ReachesLaunch cfg w invID) :
    (Provision cfg w).err = (launchAndPoll cfg w invID).err := by
  rcases h with ⟨hdyn, rfl⟩ | ⟨hdyn, d, hostID, hd, hinv, hhost⟩
  · simp [Provision, hdyn]
  · simp [Provision, hdyn, hd, hinv, hhost]

/-- C4: `Provision` returns the error of the first step that fails and nil when none
does. In a dynamic-inventory run: the error of host-detail discovery; else that of
`CreateInventory`; else that of `CreateHost`. In a run that reaches the launch (static
inventory, or all three succeeded): the error of `LaunchJob`; else that of `PollJob`;
else nil. The returned error is also the first error among the non-cleanup entries of
the log, and it stays the same when the outcomes of `DeleteHost` and `DeleteInventory`
are replaced by any others. -/
theorem Provision_error_is_first_primary_error (cfg : Config) (w : World) :
    (∀ e, cfg.DynamicInventory = true → getHostDetails w.env = .error e →
      (Provision cfg w).err = some e) ∧
    (∀ d e, cfg.DynamicInventory = true → getHostDetails w.env = .ok d →
      w.CreateInventory cfg.OrganizationID = .error e → (Provision cfg w).err = some e) ∧
    (∀ d invID e, cfg.DynamicInventory = true → getHostDetails w.env = .ok d →
      w.CreateInventory cfg.OrganizationID = .ok invID → w.CreateHost invID d = .error e →
      (Provision cfg w).err = some e) ∧
    (∀ invID, ReachesLaunch cfg w invID →
      (∀ e,
        w.LaunchJob invID cfg.JobTemplateID cfg.WorkflowTemplateID cfg.ExtraVars = .error e →
        (Provision cfg w).err = some e) ∧
      (∀ jobID e,
        w.LaunchJob invID cfg.JobTemplateID cfg.WorkflowTemplateID cfg.ExtraVars = .ok jobID →
        w.PollJob jobID cfg.Timeout cfg.PollInterval = some e →
        (Provision cfg w).err = some e) ∧
      (∀ jobID,
        w.LaunchJob invID cfg.JobTemplateID cfg.WorkflowTemplateID cfg.ExtraVars = .ok jobID →
        w.PollJob jobID cfg.Timeout cfg.PollInterval = none →
        (Provision cfg w).err = none)) ∧
    (Provision cfg w).err =
      ((Provision cfg w).events.filter (fun e => !e.call.isDelete)).findSome? Event.err ∧
    ((Provision cfg w).err ≠ none ↔
      ∃ e ∈ (Provision cfg w).events, e.call.isDelete = false ∧ e.err ≠ none) ∧
    ∀ (deleteHost deleteInventory : Int → Option Error),
      (Provision cfg { w with DeleteHost := deleteHost,
                              DeleteInventory := deleteInventory }).err
        = (Provision cfg w).err := by
  refine ⟨fun e hdyn hd => ?_, fun d e hdyn hd hinv => ?_,
    fun d invID e hdyn hd hinv hhost => ?_, fun invID hreach => ?_, ?_⟩
  · simp [Provision, hdyn, hd]
  · simp [Provision, hdyn, hd, hinv]
  · simp [Provision, hdyn, hd, hinv, hhost]
  · rw [Provision_err_of_reachesLaunch cfg w invID hreach]
    exact launchAndPoll_outcome cfg w invID
  have key : (Provision cfg w).err =
      ((Provision cfg w).events.filter (fun e => !e.call.isDelete)).findSome? Event.err := by
    have hb := fun invID => launchAndPoll_err cfg w invID
    cases hdyn : cfg.DynamicInventory
    · simpa [Provision, hdyn] using hb cfg.InventoryID
    · cases hd : getHostDetails w.env with
      | error e => simp [Provision, hdyn, hd, Call.isDelete]
      | ok d =>
        cases hinv : w.CreateInventory cfg.OrganizationID with
        | error e => simp [Provision, hdyn, hd, hinv, Call.isDelete]
        | ok invID =>
          cases hhost : w.CreateHost invID d with
          | error e => simp [Provision, hdyn, hd, hinv, hhost, Call.isDelete]
          | ok hostID =>
            have hclean : (deferredCleanup cfg w invID hostID).1.filter
                (fun e => !e.call.isDelete) = [] := by
              unfold deferredCleanup
              cases cfg.KeepTempInventory <;> simp [Call.isDelete]
            have hpre : ([⟨.getHostDetails, none⟩,
                ⟨.CreateInventory cfg.OrganizationID, none⟩,
                ⟨.CreateHost invID d, none⟩] : List Event).filter
                  (fun e => !e.call.isDelete) =
                [⟨.getHostDetails, none⟩, ⟨.CreateInventory cfg.OrganizationID, none⟩,
                 ⟨.CreateHost invID d, none⟩] := by
              simp [Call.isDelete]
            simp only [Provision, hdyn, hd, hinv, hhost, if_true, List.filter_append, hclean,
              hpre, List.append_nil, List.findSome?_append]
            rw [hb invID]
            simp
  refine ⟨key, ?_, ?_⟩
  · rw [key, ← Option.isSome_iff_ne_none, List.findSome?_isSome_iff]
    simp only [List.mem_filter, Option.isSome_iff_ne_none]
    constructor
    · rintro ⟨e, ⟨he, hnd⟩, hne⟩
      exact ⟨e, he, by simpa using hnd, hne⟩
    · rintro ⟨e, he, hnd, hne⟩
      exact ⟨e, ⟨he, by simp [hnd]⟩, hne⟩
  · intro deleteHost deleteInventory
    cases hdyn : cfg.DynamicInventory
    · simp [Provision, hdyn, launchAndPoll]
    · cases hd : getHostDetails w.env with
      | error e => simp [Provision, hdyn, hd]
      | ok d =>
        cases hinv : w.CreateInventory cfg.OrganizationID with
        | error e => simp [Provision, hdyn, hd, hinv]
        | ok invID =>
          cases hhost : w.CreateHost invID d with
          | error e => simp [Provision, hdyn, hd, hinv, hhost]
          | ok hostID => simp [Provision, hdyn, hd, hinv, hhost, launchAndPoll]

/-- C4 at concrete runs: with a failing job and failing deletes the job error is
returned; with every call succeeding the result is nil; with the host rejected the
host error is returned. -/
theorem Provision_error_is_first_primary_error_witness :
    (Provision cfgDynamic worldJobAndDeletesFail).err = some (.Errorf "job %d failed" [999]) ∧
    (Provision cfgDynamic worldAllOK).err = none ∧
    (Provision cfgDynamic worldHostRejected).err = some (.New "failed to create host") :=
  ⟨((Provision_error_is_first_primary_error cfgDynamic worldJobAndDeletesFail).2.2.2.1 123
      (Or.inr ⟨rfl, hostComplete, 456, by decide, rfl, rfl⟩)).2.1 999 _ rfl rfl,
   ((Provision_error_is_first_primary_error cfgDynamic worldAllOK).2.2.2.1 123
      (Or.inr ⟨rfl, hostComplete, 456, by decide, rfl, rfl⟩)).2.2 999 rfl rfl,
   (Provision_error_is_first_primary_error cfgDynamic worldHostRejected).2.2.1
      hostComplete 123 _ rfl (by decide) rfl rfl⟩

/-- C5: a run with `dynamic_inventory` false issues no `CreateInventory`, `CreateHost`,
`DeleteHost` or `DeleteInventory` call, whatever the outcomes of the calls it makes,
and its `LaunchJob` call (the first call, and the only launch) carries exactly the
configured `inventory_id`, `job_template_id`, `workflow_template_id` and `extra_vars`. -/
theorem Provision_static_inventory (cfg : Config) (w : World)
    (hdyn : cfg.DynamicInventory = false) :
    (∀ c ∈ (Provision cfg w).calls,
      c.isCreateInventory = false ∧ c.isCreateHost = false ∧ c.isDelete = false) ∧
    (Provision cfg w).calls.head? =
      some (.LaunchJob cfg.InventoryID cfg.JobTemplateID cfg.WorkflowTemplateID
        cfg.ExtraVars) ∧
    (Provision cfg w).calls.filter Call.isLaunchJob =
      [.LaunchJob cfg.InventoryID cfg.JobTemplateID cfg.WorkflowTemplateID
        cfg.ExtraVars] := by
  have hP : Provision cfg w = launchAndPoll cfg w cfg.InventoryID := by
    simp [Provision, hdyn]
  have hbody := launchAndPoll_calls cfg w cfg.InventoryID
  rw [hP]
  refine ⟨fun c hc => ⟨(hbody.1 c hc).2.1, (hbody.1 c hc).2.2.1, (hbody.1 c hc).1⟩, ?_,
    hbody.2⟩
  unfold launchAndPoll Run.calls
  cases hl : w.LaunchJob cfg.InventoryID cfg.JobTemplateID cfg.WorkflowTemplateID
      cfg.ExtraVars with
  | error e => simp
  | ok jobID => cases hp : w.PollJob jobID cfg.Timeout cfg.PollInterval <;> simp [hp]

/-- C5 at a concrete run against inventory 7. -/
theorem Provision_static_inventory_witness :
    (Provision cfgStatic worldAllOK).calls.filter Call.isLaunchJob =
      [.LaunchJob 7 42 0 (some [("custom", .str "value")])] :=
  (Provision_static_inventory cfgStatic worldAllOK rfl).2.2

/-- C6: `getHostDetails` fails whenever `PACKER_SSH_HOST`, `PACKER_SSH_PORT` or
`PACKER_SSH_USERNAME` is empty, or `PACKER_SSH_KEY_FILE` and `PACKER_SSH_PASSWORD` are
both empty; otherwise, when the port text is an integer, it returns exactly the five
values; and a dynamic-inventory run in which `getHostDetails` fails returns that very
error and issues no remote call. -/
theorem getHostDetails_required_and_fail_fast :
    (∀ env : String → String,
      (env "PACKER_SSH_HOST" = "" ∨ env "PACKER_SSH_PORT" = "" ∨
        env "PACKER_SSH_USERNAME" = "" ∨
        (env "PACKER_SSH_KEY_FILE" = "" ∧ env "PACKER_SSH_PASSWORD" = "")) →
      ∃ err, getHostDetails env = .error err) ∧
    (∀ (env : String → String) (port : Int),
      env "PACKER_SSH_HOST" ≠ "" → env "PACKER_SSH_PORT" ≠ "" →
      env "PACKER_SSH_USERNAME" ≠ "" →
      ¬ (env "PACKER_SSH_KEY_FILE" = "" ∧ env "PACKER_SSH_PASSWORD" = "") →
      Atoi (env "PACKER_SSH_PORT") = .ok port →
      getHostDetails env = .ok
        { Host := env "PACKER_SSH_HOST", Port := port,
          Username := env "PACKER_SSH_USERNAME", KeyFile := env "PACKER_SSH_KEY_FILE",
          Password := env "PACKER_SSH_PASSWORD" }) ∧
    (∀ (cfg : Config) (w : World) (err : Error),
      cfg.DynamicInventory = true → getHostDetails w.env = .error err →
      (Provision cfg w).err = some err ∧
      ∀ c ∈ (Provision cfg w).calls, c.isRemote = false) := by
  refine ⟨?_, ?_, ?_⟩
  · intro env h
    unfold getHostDetails
    by_cases h1 : env "PACKER_SSH_HOST" = ""
    · exact ⟨.New "PACKER_SSH_HOST environment variable is missing", by simp [h1]⟩
    · by_cases h2 : env "PACKER_SSH_PORT" = ""
      · exact ⟨.New "PACKER_SSH_PORT environment variable is missing", by simp [h1, h2]⟩
      · cases hp : Atoi (env "PACKER_SSH_PORT") with
        | error e =>
          exact ⟨.ErrorfErr "invalid PACKER_SSH_PORT: %s" [] e, by simp [h1, h2, hp]⟩
        | ok port =>
          by_cases h3 : env "PACKER_SSH_USERNAME" = ""
          · exact ⟨.New "PACKER_SSH_USERNAME environment variable is missing",
              by simp [h1, h2, hp, h3]⟩
          · have h4 : env "PACKER_SSH_KEY_FILE" = "" ∧ env "PACKER_SSH_PASSWORD" = "" := by
              rcases h with h | h | h | h
              · exact absurd h h1
              · exact absurd h h2
              · exact absurd h h3
              · exact h
            exact ⟨.New "either PACKER_SSH_KEY_FILE or PACKER_SSH_PASSWORD must be set",
              by simp [h1, h2, hp, h3, h4.1, h4.2]⟩
  · intro env port h1 h2 h3 h4 hp
    unfold getHostDetails
    simp only [h1, h2, h3, hp, if_false]
    rw [if_neg h4]
  · intro cfg w err hdyn hd
    simp [Provision, hdyn, hd, Run.calls, Call.isRemote]

/-- C6 at concrete environments: the empty environment is rejected, the complete one
gives its five values, and the dynamic run without environment returns the discovery
error after no remote call. -/
theorem getHostDetails_required_and_fail_fast_witness :
    (∃ err, getHostDetails envEmpty = .error err) ∧
    getHostDetails envComplete = .ok hostComplete ∧
    (Provision cfgDynamic worldNoEnv).err
      = some (.New "PACKER_SSH_HOST environment variable is missing") ∧
    ∀ c ∈ (Provision cfgDynamic worldNoEnv).calls, c.isRemote = false :=
  ⟨getHostDetails_required_and_fail_fast.1 envEmpty (Or.inl rfl),
   getHostDetails_required_and_fail_fast.2.1 envComplete 22
     (by decide) (by decide) (by decide) (by decide) (by decide),
   (getHostDetails_required_and_fail_fast.2.2 cfgDynamic worldNoEnv _ rfl (by decide)).1,
   (getHostDetails_required_and_fail_fast.2.2 cfgDynamic worldNoEnv
     (.New "PACKER_SSH_HOST environment variable is missing") rfl (by decide)).2⟩

end main

/-! ## The job wait loop -/

namespace client

/-- An iteration never moves the clock backwards. -/
theorem iterationTime_nonneg (pollInterval : Int) (late : Nat) :
    0 ≤ iterationTime pollInterval late := by
  unfold iterationTime
  have h1 : (0 : Int) ≤ max pollInterval 0 := le_max_right _ _
  have h2 : (0 : Int) ≤ (late : Int) := Int.ofNat_nonneg late
  omega

/-- The time that passes over a sequence of events is not negative. -/
theorem elapsedOver_nonneg (pollInterval : Int) (wakes : List Wake) :
    0 ≤ elapsedOver pollInterval wakes := by
  induction wakes with
  | nil => simp [elapsedOver]
  | cons w rest ih =>
    cases w with
    | ctxDone cause => simpa [elapsedOver] using ih
    | timer resp late =>
      have := iterationTime_nonneg pollInterval late
      simp only [elapsedOver]
      omega

/-- While the timer fires, the fetches do not stop the loop and the timeout has not
passed, the loop consumes the events and keeps its two counters in step. -/
theorem PollJob_loop_keepsWaiting (jobID timeout pollInterval : Int) (pre rest : List Wake) :
    ∀ (elapsed : Int) (fetches : Nat),
      (∀ w ∈ pre, w.keepsWaiting = true) →
      (pre ≠ [] → elapsed + elapsedOver pollInterval pre ≤ timeout) →
      PollJob.loop jobID timeout pollInterval (pre ++ rest) elapsed fetches =
        PollJob.loop jobID timeout pollInterval rest
          (elapsed + elapsedOver pollInterval pre) (fetches + pre.length) := by
  induction pre with
  | nil => intro elapsed fetches _ _; simp [elapsedOver]
  | cons w pre ih =>
    intro elapsed fetches hpre htime
    have hw := hpre w (List.mem_cons_self _ _)
    have hrest : ∀ v ∈ pre, v.keepsWaiting = true :=
      fun v hv => hpre v (List.mem_cons_of_mem _ hv)
    have ht := htime (List.cons_ne_nil _ _)
    cases w with
    | ctxDone cause => simp [Wake.keepsWaiting] at hw
    | timer resp late =>
      have hpos := elapsedOver_nonneg pollInterval pre
      simp only [elapsedOver] at ht
      cases resp with
      | transportError err => simp [Wake.keepsWaiting, Response.stops] at hw
      | httpError status => simp [Wake.keepsWaiting, Response.stops] at hw
      | ok status failed =>
        simp only [Wake.keepsWaiting, Response.stops, Bool.not_eq_true', Bool.or_eq_false_iff,
          decide_eq_false_iff_not] at hw
        obtain ⟨⟨hs, hf⟩, hfl⟩ := hw
        have hnow : ¬ elapsed + iterationTime pollInterval late > timeout := by omega
        have hstep := ih (elapsed + iterationTime pollInterval late) (fetches + 1) hrest
          (fun _ => by omega)
        simp only [List.cons_append, PollJob.loop, hs, hf, hfl, if_false, hnow, false_or,
          Bool.false_eq_true, elapsedOver, List.length_cons]
        refine Eq.trans hstep ?_
        congr 1
        · omega
        · omega

/-- C7: when the events before it are timer wake-ups whose fetches do not stop the loop
(no cancellation) and the timeout has not passed at any clock reading among them,
`PollJob` is still waiting after them and returns at the next fetch if that fetch
errors, reports status "successful", reports status "failed" or sets the failed flag:
it returns after exactly one more fetch, with nil exactly when that fetch reports status
"successful" and a non-nil error otherwise. A first fetch answering status "failed"
with the failed flag set makes it return the job-failed error after a single fetch,
whatever the timeout. -/
theorem PollJob_stops_at_first_terminal_fetch (jobID timeout pollInterval : Int)
    (pre rest : List Wake) (resp : Response) (late : Nat)
    (hpre : ∀ w ∈ pre, w.keepsWaiting = true)
    (htime : pre ≠ [] → elapsedOver pollInterval pre ≤ timeout)
    (hstop : resp.stops = true) :
    PollJob jobID timeout pollInterval pre = none ∧
    (∃ r, PollJob jobID timeout pollInterval (pre ++ .timer resp late :: rest) = some r ∧
      r.fetches = pre.length + 1 ∧
      (r.err = none ↔ ∃ failed, resp = .ok "successful" failed)) ∧
    PollJob jobID timeout pollInterval (.timer (.ok "failed" true) late :: rest)
      = some ⟨some (.Errorf "job %d failed" [jobID]), 1, iterationTime pollInterval late⟩ := by
  have hloop := fun tail => PollJob_loop_keepsWaiting jobID timeout pollInterval pre tail 0 0
    hpre (by simpa using htime)
  refine ⟨?_, ?_, ?_⟩
  · have h := hloop []
    simp only [List.append_nil] at h
    unfold PollJob
    rw [h]
    rfl
  · unfold PollJob
    rw [hloop]
    cases resp with
    | transportError err => exact ⟨_, rfl, by simp, by simp⟩
    | httpError status => exact ⟨_, rfl, by simp, by simp⟩
    | ok status failed =>
      by_cases hs : status = "successful"
      · subst hs
        exact ⟨_, by simp only [PollJob.loop, if_true]; rfl, by simp, by simp⟩
      · simp only [Response.stops, hs, decide_False, Bool.false_or, Bool.or_eq_true,
          decide_eq_true_eq] at hstop
        refine ⟨⟨some (.Errorf "job %d failed" [jobID]), pre.length + 1,
          elapsedOver pollInterval pre + iterationTime pollInterval late⟩, ?_, ?_, ?_⟩
        · simp only [PollJob.loop, hs, if_false, hstop, if_true, zero_add]
        · rfl
        · simp [hs]
  · simp [PollJob, PollJob.loop]

/-- C7 at the backend of the test: status "failed" with the failed flag on the first
poll, timeout 30 s, poll interval 100 ms. -/
theorem PollJob_stops_at_first_terminal_fetch_witness :
    PollJob 999 (30 * Second) 100000000 (.timer (.ok "failed" true) 0 :: [])
      = some ⟨some (.Errorf "job %d failed" [999]), 1, iterationTime 100000000 0⟩ :=
  (PollJob_stops_at_first_terminal_fetch 999 (30 * Second) 100000000 [] []
    (.ok "failed" true) 0 (by simp) (by simp) rfl).2.2

/-- C9: when the events so far are timer wake-ups whose fetches do not stop the loop and
the timeout has not passed, and the next event observed by the `select` is the
cancellation of the context, `PollJob` returns the cause `ctx.Err()` at once: the number
of fetches is the number issued before, nothing after the cancellation is looked at,
and the result is neither nil nor decided by the timeout check. -/
theorem PollJob_cancelled_during_wait (jobID timeout pollInterval : Int)
    (pre rest : List Wake) (cause : Error)
    (hpre : ∀ w ∈ pre, w.keepsWaiting = true)
    (htime : pre ≠ [] → elapsedOver pollInterval pre ≤ timeout) :
    PollJob jobID timeout pollInterval (pre ++ .ctxDone cause :: rest)
      = some ⟨some cause, pre.length, elapsedOver pollInterval pre⟩ := by
  unfold PollJob
  rw [PollJob_loop_keepsWaiting jobID timeout pollInterval pre _ 0 0 hpre
    (by simpa using htime)]
  simp [PollJob.loop]

/-- C9 at a concrete wait: two fetches answer "running", then the context is cancelled
during the third sleep. -/
theorem PollJob_cancelled_during_wait_witness :
    PollJob 999 (30 * Second) 100000000
        (alwaysRunning 2 ++ .ctxDone (.New "context canceled") :: alwaysRunning 5)
      = some ⟨some (.New "context canceled"), 2, 200000000⟩ :=
  PollJob_cancelled_during_wait 999 (30 * Second) 100000000 (alwaysRunning 2)
    (alwaysRunning 5) (.New "context canceled") (by decide) (by decide)

/-- With nothing spent beyond the poll interval, an iteration takes the poll interval. -/
theorem iterationTime_exact (I : Nat) : iterationTime (I : Int) 0 = (I : Int) := by
  simp [iterationTime]

/-- The loop against the always-running backend, entered with `k` fetches done at time
`k * I`: it returns the timeout error at fetch `T / I + 1` if the events reach that far,
and is still waiting otherwise. -/
theorem PollJob_loop_alwaysRunning (jobID : Int) (T I : Nat) (hI : 0 < I) :
    ∀ (m k : Nat), k ≤ T / I →
      PollJob.loop jobID (T : Int) (I : Int) (alwaysRunning m) ((k * I : Nat) : Int) k =
        if T / I + 1 ≤ k + m then
          some ⟨some (.New "timeout waiting for job completion"), T / I + 1,
            (((T / I + 1) * I : Nat) : Int)⟩
        else none := by
  intro m
  induction m with
  | zero =>
    intro k hk
    have hlt : ¬ (T / I + 1 ≤ k + 0) := by omega
    rw [if_neg hlt]
    rfl
  | succ m ih =>
    intro k hk
    have hnow : ((k * I : Nat) : Int) + iterationTime (I : Int) 0
        = (((k + 1) * I : Nat) : Int) := by
      rw [iterationTime_exact]
      push_cast
      ring
    have hcons : alwaysRunning (m + 1) = .timer (.ok "running" false) 0 :: alwaysRunning m :=
      rfl
    have hrun : ¬ ("running" = "successful") := by decide
    have hrun2 : ¬ ("running" = "failed" ∨ false = true) := by decide
    rw [hcons]
    simp only [PollJob.loop, hrun, hrun2, if_false, hnow]
    rcases Nat.lt_or_ge k (T / I) with hlt | hge
    · have hle : k + 1 ≤ T / I := hlt
      have hno : ¬ (T < (k + 1) * I) := by
        rw [← Nat.div_lt_iff_lt_mul hI]
        omega
      have hno2 : ¬ ((((k + 1) * I : Nat) : Int) > (T : Int)) := by
        intro h
        exact hno (by exact_mod_cast h)
      rw [if_neg hno2, ih (k + 1) hle]
      have : (T / I + 1 ≤ k + 1 + m) ↔ (T / I + 1 ≤ k + (m + 1)) := by omega
      simp only [this]
    · have hk2 : k = T / I := by omega
      have hyes : T < (k + 1) * I := by
        rw [← Nat.div_lt_iff_lt_mul hI]
        omega
      have hyes2 : (((k + 1) * I : Nat) : Int) > (T : Int) := by exact_mod_cast hyes
      have : T / I + 1 ≤ k + (m + 1) := by omega
      rw [if_pos hyes2, if_pos this, hk2]

/-- On the idealised clock of `alwaysRunning`, where every iteration takes exactly the
poll interval, the loop returns the timeout error at fetch `T / I + 1`, at time
`(T / I + 1) * I`, and is still waiting after fewer wake-ups. -/
theorem PollJob_times_out_after_floor_plus_one (jobID : Int) (T I n : Nat) (hI : 0 < I) :
    (T / I + 1 ≤ n →
      PollJob jobID (T : Int) (I : Int) (alwaysRunning n) =
        some ⟨some (.New "timeout waiting for job completion"), T / I + 1,
          (((T / I + 1) * I : Nat) : Int)⟩) ∧
    (n ≤ T / I → PollJob jobID (T : Int) (I : Int) (alwaysRunning n) = none) := by
  have h := PollJob_loop_alwaysRunning jobID T I hI n 0 (Nat.zero_le _)
  simp only [Nat.zero_mul, Nat.cast_zero, zero_add] at h
  constructor
  · intro hn
    unfold PollJob
    rw [h, if_pos hn]
  · intro hn
    unfold PollJob
    rw [h, if_neg (by omega)]

end client

/-! ## Configuration validation -/

namespace config

/-- A host with one of the two accepted schemes is not empty. -/
theorem towerHost_ne_empty (host : String)
    (h : HasPrefix host "http://" = true ∨ HasPrefix host "https://" = true) :
    host ≠ "" := by
  rintro rfl
  rcases h with h | h <;> exact absurd h (by decide)

/-- C10: `Validate` returns an error for every configuration whose `job_template_id`
and `workflow_template_id` are both zero; and it returns nil for every configuration
with an http or https `tower_host`, an auth mode (an access token, or a username with a
password), an `organization_id` when `dynamic_inventory` is set, and exactly one of the
two ids non-zero. -/
theorem Validate_job_selector :
    (∀ c : Config, c.JobTemplateID = 0 → c.WorkflowTemplateID = 0 →
      ∃ err, c.Validate.1 = some err) ∧
    (∀ c : Config,
      (HasPrefix c.TowerHost "http://" = true ∨ HasPrefix c.TowerHost "https://" = true) →
      (c.AccessToken ≠ "" ∨ (c.Username ≠ "" ∧ c.Password ≠ "")) →
      (c.DynamicInventory = true → c.OrganizationID ≠ 0) →
      ((c.JobTemplateID ≠ 0 ∧ c.WorkflowTemplateID = 0) ∨
        (c.JobTemplateID = 0 ∧ c.WorkflowTemplateID ≠ 0)) →
      c.Validate.1 = none) := by
  constructor
  · intro c hj hw
    unfold Config.Validate
    split_ifs <;> simp_all
  · intro c hhost hauth horg hsel
    have hne := towerHost_ne_empty c.TowerHost hhost
    have h2 : ¬ ((!HasPrefix c.TowerHost "http://" && !HasPrefix c.TowerHost "https://")
        = true) := by
      rcases hhost with h | h <;> simp [h]
    have h3 : ¬ (c.AccessToken = "" ∧ c.Username = "") := by
      rintro ⟨ha, hu⟩
      rcases hauth with h | h
      · exact h ha
      · exact h.1 hu
    have h4 : ¬ (c.AccessToken = "" ∧ c.Password = "") := by
      rintro ⟨ha, hp⟩
      rcases hauth with h | h
      · exact h ha
      · exact h.2 hp
    have h5 : ¬ (c.JobTemplateID = 0 ∧ c.WorkflowTemplateID = 0) := by
      rintro ⟨hj, hw⟩
      rcases hsel with h | h
      · exact h.1 hj
      · exact h.2 hw
    have h6 : ¬ (c.DynamicInventory = true ∧ c.OrganizationID = 0) :=
      fun h => horg h.1 h.2
    unfold Config.Validate
    rw [if_neg hne, if_neg h2, if_neg h3, if_neg h4, if_neg h5, if_neg h6]

/-- C10 at three cases of the test table: no template is rejected, a workflow template
alone and a job template alone are accepted. -/
theorem Validate_job_selector_witness :
    (∃ err, cfgNoTemplate.Validate.1 = some err) ∧
    cfgWorkflowTemplate.Validate.1 = none ∧
    cfgJobTemplate.Validate.1 = none :=
  ⟨Validate_job_selector.1 cfgNoTemplate rfl rfl,
   Validate_job_selector.2 cfgWorkflowTemplate (Or.inr (by decide))
     (Or.inr ⟨by decide, by decide⟩) (by decide) (Or.inr ⟨rfl, by decide⟩),
   Validate_job_selector.2 cfgJobTemplate (Or.inr (by decide))
     (Or.inr ⟨by decide, by decide⟩) (by decide) (Or.inl ⟨by decide, rfl⟩)⟩

end config

/-! ## Validation: acceptance, defaults, and the unchanged configuration on error -/

namespace config

/-- Once every check passes, `Validate` returns nil and the defaulted configuration. -/
theorem Validate_of_acceptable (c : Config) (h : c.Acceptable) :
    c.Validate = (none, c.defaulted) := by
  obtain ⟨hhost, hauth, hsel, horg⟩ := h
  have h1 := towerHost_ne_empty c.TowerHost hhost
  have h2 : ¬ ((!HasPrefix c.TowerHost "http://" && !HasPrefix c.TowerHost "https://")
      = true) := by
    rcases hhost with h | h <;> simp [h]
  have h3 : ¬ (c.AccessToken = "" ∧ c.Username = "") := by
    rintro ⟨ha, hu⟩
    rcases hauth with h | h
    · exact h ha
    · exact h.1 hu
  have h4 : ¬ (c.AccessToken = "" ∧ c.Password = "") := by
    rintro ⟨ha, hp⟩
    rcases hauth with h | h
    · exact h ha
    · exact h.2 hp
  have h5 : ¬ (c.JobTemplateID = 0 ∧ c.WorkflowTemplateID = 0) := by
    rintro ⟨hj, hw⟩
    rcases hsel with h | h
    · exact h hj
    · exact h hw
  have h6 : ¬ (c.DynamicInventory = true ∧ c.OrganizationID = 0) := by
    rintro ⟨hd, ho⟩
    rcases horg with h | h
    · simp [hd] at h
    · exact h ho
  unfold Config.Validate
  rw [if_neg h1, if_neg h2, if_neg h3, if_neg h4, if_neg h5, if_neg h6]
  rfl

/-- When a check fails, `Validate` returns an error and leaves the configuration as it
was. -/
theorem Validate_of_not_acceptable (c : Config) (h : ¬ c.Acceptable) :
    ∃ err, c.Validate = (some err, c) := by
  unfold Config.Validate
  by_cases h1 : c.TowerHost = ""
  · exact ⟨.New "tower_host must be set", by rw [if_pos h1]⟩
  by_cases h2 : (!HasPrefix c.TowerHost "http://" && !HasPrefix c.TowerHost "https://") = true
  · exact ⟨.New "tower_host must start with http:// or https://",
      by rw [if_neg h1, if_pos h2]⟩
  by_cases h3 : c.AccessToken = "" ∧ c.Username = ""
  · exact ⟨.New "username must be set when access_token is not provided",
      by rw [if_neg h1, if_neg h2, if_pos h3]⟩
  by_cases h4 : c.AccessToken = "" ∧ c.Password = ""
  · exact ⟨.New "password must be set when access_token is not provided",
      by rw [if_neg h1, if_neg h2, if_neg h3, if_pos h4]⟩
  by_cases h5 : c.JobTemplateID = 0 ∧ c.WorkflowTemplateID = 0
  · exact ⟨.New "either job_template_id or workflow_template_id must be set",
      by rw [if_neg h1, if_neg h2, if_neg h3, if_neg h4, if_pos h5]⟩
  by_cases h6 : c.DynamicInventory = true ∧ c.OrganizationID = 0
  · exact ⟨.New "organization_id must be set when dynamic_inventory is true",
      by rw [if_neg h1, if_neg h2, if_neg h3, if_neg h4, if_neg h5, if_pos h6]⟩
  exfalso
  apply h
  refine ⟨?_, ?_, ?_, ?_⟩
  · by_contra hh
    apply h2
    have ha : HasPrefix c.TowerHost "http://" = false := by
      cases hx : HasPrefix c.TowerHost "http://"
      · rfl
      · exact absurd (Or.inl hx) hh
    have hb : HasPrefix c.TowerHost "https://" = false := by
      cases hx : HasPrefix c.TowerHost "https://"
      · rfl
      · exact absurd (Or.inr hx) hh
    simp [ha, hb]
  · by_cases ha : c.AccessToken = ""
    · right
      exact ⟨fun hu => h3 ⟨ha, hu⟩, fun hp => h4 ⟨ha, hp⟩⟩
    · exact Or.inl ha
  · by_cases hj : c.JobTemplateID = 0
    · exact Or.inr (fun hw => h5 ⟨hj, hw⟩)
    · exact Or.inl hj
  · cases hd : c.DynamicInventory
    · exact Or.inl rfl
    · exact Or.inr (fun ho => h6 ⟨hd, ho⟩)

/-- The outcome of `Validate` is nil exactly on the acceptable configurations. -/
theorem Validate_nil_iff (c : Config) : c.Validate.1 = none ↔ c.Acceptable := by
  constructor
  · intro h
    by_contra hn
    obtain ⟨err, he⟩ := Validate_of_not_acceptable c hn
    rw [he] at h
    exact absurd h (by simp)
  · intro h
    rw [Validate_of_acceptable c h]

/-- The fields of the defaulted configuration. -/
theorem defaulted_fields (c : Config) :
    c.defaulted.Timeout = (if c.Timeout = 0 then 15 * Minute else c.Timeout) ∧
    c.defaulted.PollInterval = (if c.PollInterval = 0 then 10 * Second else c.PollInterval) ∧
    c.defaulted.ExtraVars = (if c.ExtraVars = none then some [] else c.ExtraVars) ∧
    c.defaulted.CreateCredential = true ∧
    c.defaulted.TowerHost = c.TowerHost ∧ c.defaulted.Username = c.Username ∧
    c.defaulted.Password = c.Password ∧ c.defaulted.AccessToken = c.AccessToken ∧
    c.defaulted.JobTemplateID = c.JobTemplateID ∧
    c.defaulted.WorkflowTemplateID = c.WorkflowTemplateID ∧
    c.defaulted.DynamicInventory = c.DynamicInventory ∧
    c.defaulted.OrganizationID = c.OrganizationID := by
  unfold Config.defaulted
  cases hc : c.CreateCredential <;> by_cases ht : c.Timeout = 0 <;>
    by_cases hp : c.PollInterval = 0 <;> by_cases he : c.ExtraVars = none <;>
    simp [ht, hp, he, hc]

/-- Defaulting a defaulted configuration changes nothing. -/
theorem defaulted_idem (c : Config) : c.defaulted.defaulted = c.defaulted := by
  obtain ⟨h1, h2, h3, h4, -⟩ := defaulted_fields c
  have ht : c.defaulted.Timeout ≠ 0 := by
    rw [h1]
    split_ifs with h
    · decide
    · exact h
  have hp : c.defaulted.PollInterval ≠ 0 := by
    rw [h2]
    split_ifs with h
    · decide
    · exact h
  have he : c.defaulted.ExtraVars ≠ none := by
    rw [h3]
    split_ifs with h
    · simp
    · exact h
  generalize c.defaulted = d at ht hp he h4
  unfold Config.defaulted
  simp [ht, hp, he, h4]

/-- Defaulting keeps a configuration acceptable. -/
theorem defaulted_acceptable (c : Config) (h : c.Acceptable) : c.defaulted.Acceptable := by
  obtain ⟨-, -, -, -, e1, e2, e3, e4, e5, e6, e7, e8⟩ := defaulted_fields c
  unfold Config.Acceptable at h ⊢
  rw [e1, e2, e3, e4, e5, e6, e7, e8]
  exact h

/-- C11: for every configuration with `dynamic_inventory` true and `organization_id`
zero, whatever its other fields, `Validate` returns an error (and leaves the
configuration as it was). -/
theorem Validate_dynamic_requires_organization (c : Config)
    (hdyn : c.DynamicInventory = true) (horg : c.OrganizationID = 0) :
    ∃ err, c.Validate = (some err, c) := by
  apply Validate_of_not_acceptable
  rintro ⟨-, -, -, h⟩
  rcases h with h | h
  · simp [hdyn] at h
  · exact h horg

/-- C11 at the case of the test table without an organization. -/
theorem Validate_dynamic_requires_organization_witness :
    ∃ err, cfgDynamicNoOrg.Validate = (some err, cfgDynamicNoOrg) :=
  Validate_dynamic_requires_organization cfgDynamicNoOrg rfl rfl

/-- C12: `Validate` returns nil if and only if `tower_host` starts with "http://" or
"https://", `access_token` is non-empty or both `username` and `password` are,
`job_template_id` or `workflow_template_id` is non-zero, and `dynamic_inventory` is false
or `organization_id` is non-zero; every configuration is either accepted, with the
defaults written, or rejected and left unchanged; and the ten cases of the test table
come out as their `wantErr` says. -/
theorem Validate_nil_iff_rules :
    (∀ c : Config, c.Validate.1 = none ↔
      ((HasPrefix c.TowerHost "http://" = true ∨ HasPrefix c.TowerHost "https://" = true) ∧
       (c.AccessToken ≠ "" ∨ (c.Username ≠ "" ∧ c.Password ≠ "")) ∧
       (c.JobTemplateID ≠ 0 ∨ c.WorkflowTemplateID ≠ 0) ∧
       (c.DynamicInventory = false ∨ c.OrganizationID ≠ 0))) ∧
    (∀ c : Config, c.Validate = (none, c.defaulted) ∨ ∃ err, c.Validate = (some err, c)) ∧
    (∀ c : Config, HasPrefix c.TowerHost "http://" = true ∨
      HasPrefix c.TowerHost "https://" = true → c.TowerHost ≠ "") ∧
    testTable.all (fun t => t.1.Validate.1.isSome == t.2) = true := by
  refine ⟨fun c => Validate_nil_iff c, fun c => ?_, fun c h => towerHost_ne_empty _ h, ?_⟩
  · by_cases h : c.Acceptable
    · exact Or.inl (Validate_of_acceptable c h)
    · exact Or.inr (Validate_of_not_acceptable c h)
  · decide

/-- C12 at the first case of the test table. -/
theorem Validate_nil_iff_rules_witness : cfgJobTemplate.Validate.1 = none :=
  (Validate_nil_iff_rules.1 cfgJobTemplate).2
    ⟨Or.inr (by decide), Or.inr ⟨by decide, by decide⟩, Or.inl (by decide), Or.inl rfl⟩

/-- C13: for every configuration that passes validation, a zero `timeout` becomes 15
minutes and a zero `poll_interval` 10 seconds, a non-zero `timeout` or `poll_interval`
is left as given, and validating the validated configuration again succeeds and
returns that same configuration. -/
theorem Validate_defaults_idempotent (c : Config) (h : c.Validate.1 = none) :
    (c.Timeout = 0 → c.Validate.2.Timeout = 15 * Minute) ∧
    (c.PollInterval = 0 → c.Validate.2.PollInterval = 10 * Second) ∧
    (c.Timeout ≠ 0 → c.Validate.2.Timeout = c.Timeout) ∧
    (c.PollInterval ≠ 0 → c.Validate.2.PollInterval = c.PollInterval) ∧
    c.Validate.2.Validate = (none, c.Validate.2) := by
  have hacc := (Validate_nil_iff c).1 h
  have hv := Validate_of_acceptable c hacc
  obtain ⟨h1, h2, -⟩ := defaulted_fields c
  rw [hv]
  refine ⟨fun ht => ?_, fun hp => ?_, fun ht => ?_, fun hp => ?_, ?_⟩
  · show c.defaulted.Timeout = _
    rw [h1, if_pos ht]
  · show c.defaulted.PollInterval = _
    rw [h2, if_pos hp]
  · show c.defaulted.Timeout = _
    rw [h1, if_neg ht]
  · show c.defaulted.PollInterval = _
    rw [h2, if_neg hp]
  · show c.defaulted.Validate = (none, c.defaulted)
    rw [Validate_of_acceptable _ (defaulted_acceptable c hacc), defaulted_idem]

/-- C13 at the configuration of `TestConfig_Validate_Defaults`. -/
theorem Validate_defaults_idempotent_witness :
    cfgJobTemplate.Validate.2.Timeout = 15 * Minute ∧
    cfgJobTemplate.Validate.2.PollInterval = 10 * Second ∧
    cfgJobTemplate.Validate.2.Validate = (none, cfgJobTemplate.Validate.2) :=
  have h := Validate_defaults_idempotent cfgJobTemplate (by decide)
  ⟨h.1 rfl, h.2.1 rfl, h.2.2.2.2⟩

/-- C14, as the code has it: the job selector requires at least one of the two ids, not
exactly one. When `job_template_id` and `workflow_template_id` are both zero `Validate`
returns an error; when both are non-zero it returns nil exactly when the other
requirements hold (an http or https `tower_host`, an auth mode, an organization when
the inventory is dynamic), so setting both is not rejected. -/
theorem Validate_selector_at_least_one (c : Config) :
    (c.JobTemplateID = 0 → c.WorkflowTemplateID = 0 → ∃ err, c.Validate = (some err, c)) ∧
    (c.JobTemplateID ≠ 0 → c.WorkflowTemplateID ≠ 0 →
      (c.Validate.1 = none ↔
        ((HasPrefix c.TowerHost "http://" = true ∨ HasPrefix c.TowerHost "https://" = true) ∧
         (c.AccessToken ≠ "" ∨ (c.Username ≠ "" ∧ c.Password ≠ "")) ∧
         (c.DynamicInventory = false ∨ c.OrganizationID ≠ 0)))) := by
  constructor
  · intro hj hw
    apply Validate_of_not_acceptable
    rintro ⟨-, -, h, -⟩
    rcases h with h | h
    · exact h hj
    · exact h hw
  · intro hj _
    rw [Validate_nil_iff]
    unfold Config.Acceptable
    constructor
    · rintro ⟨h1, h2, -, h4⟩
      exact ⟨h1, h2, h4⟩
    · rintro ⟨h1, h2, h4⟩
      exact ⟨h1, h2, Or.inl hj, h4⟩

/-- C14 at a configuration with job template 42 and workflow template 84. -/
theorem Validate_selector_at_least_one_witness : cfgBothTemplates.Validate.1 = none :=
  ((Validate_selector_at_least_one cfgBothTemplates).2 (by decide) (by decide)).2
    ⟨Or.inr (by decide), Or.inr ⟨by decide, by decide⟩, Or.inl rfl⟩

/-- C14 fails as stated: with job template 42 and workflow template 84 both set,
`Validate` returns nil. -/
theorem Validate_accepts_both_templates :
    cfgBothTemplates.JobTemplateID ≠ 0 ∧ cfgBothTemplates.WorkflowTemplateID ≠ 0 ∧
    cfgBothTemplates.Validate.1 = none := by
  decide

/-- C16: for every configuration on which `Validate` succeeds, `extra_vars` is non-nil
afterwards: a nil mapping has become the empty mapping, and a supplied mapping keeps
exactly its entries. -/
theorem Validate_extra_vars_non_nil (c : Config) (h : c.Validate.1 = none) :
    c.Validate.2.ExtraVars ≠ none ∧
    (c.ExtraVars = none → c.Validate.2.ExtraVars = some []) ∧
    (∀ kvs, c.ExtraVars = some kvs → c.Validate.2.ExtraVars = some kvs) := by
  have hv := Validate_of_acceptable c ((Validate_nil_iff c).1 h)
  obtain ⟨-, -, h3, -⟩ := defaulted_fields c
  rw [hv]
  show c.defaulted.ExtraVars ≠ none ∧ (c.ExtraVars = none → c.defaulted.ExtraVars = some [])
    ∧ (∀ kvs, c.ExtraVars = some kvs → c.defaulted.ExtraVars = some kvs)
  rw [h3]
  refine ⟨?_, fun hn => by rw [if_pos hn], fun kvs hk => by simp [hk]⟩
  split_ifs with hn
  · simp
  · exact hn

/-- C16 at the configurations of the two default tests: nil becomes empty, and the
mapping with `custom` is preserved. -/
theorem Validate_extra_vars_non_nil_witness :
    cfgJobTemplate.Validate.2.ExtraVars = some [] ∧
    cfgCustom.Validate.2.ExtraVars = some [("custom", .str "value")] :=
  ⟨(Validate_extra_vars_non_nil cfgJobTemplate (by decide)).2.1 rfl,
   (Validate_extra_vars_non_nil cfgCustom (by decide)).2.2 _ rfl⟩

/-- C17: for every configuration on which `Validate` returns an error, the configuration
is left exactly as it was: no default has been written to `timeout`,
`poll_interval`, `extra_vars` or `create_credential`. -/
theorem Validate_error_leaves_config (c : Config) (h : c.Validate.1 ≠ none) :
    c.Validate.2 = c := by
  have hn : ¬ c.Acceptable := fun hacc => h ((Validate_nil_iff c).2 hacc)
  obtain ⟨err, he⟩ := Validate_of_not_acceptable c hn
  rw [he]

/-- C17 at the configuration without a template, whose durations and `extra_vars` are
unset and stay so. -/
theorem Validate_error_leaves_config_witness : cfgNoTemplate.Validate.2 = cfgNoTemplate :=
  Validate_error_leaves_config cfgNoTemplate (by decide)

end config

namespace main

/-- C15: on a configuration that leaves `timeout` and `poll_interval` at zero, the
`Validate` of `src/config.go` succeeds and writes 30 minutes and 5 seconds, not the
documented 15 minutes and 10 seconds. -/
theorem Validate_defaults_of_main :
    cfgUnsetDurations.Validate.1 = none ∧
    cfgUnsetDurations.Validate.2.Timeout = 30 * Minute ∧
    cfgUnsetDurations.Validate.2.PollInterval = 5 * Second ∧
    cfgUnsetDurations.Validate.2.Timeout ≠ 15 * Minute ∧
    cfgUnsetDurations.Validate.2.PollInterval ≠ 10 * Second := by
  decide

end main

/-! ## Requests of the client: job launch, host variables, credential types -/

namespace client

/-- C18: for all arguments of `LaunchJob`, the request goes to the workflow launch path
of `workflowTemplateID` when that is non-zero and to the job-template launch path of
`jobTemplateID` otherwise; the body carries the given inventory id and `extra_vars`
unchanged; the body has a `credentials` entry, the one-element list of `credentialID`,
exactly when `credentialID` is non-zero. That request is the one `LaunchJob` posts:
whatever the HTTP client is, `LaunchJob` returns what the client's answer to that
request determines (the wrapped transport error, the error for an error status, the
decoded job id, or the wrapped decoding error). -/
theorem launchRequest_endpoint_and_body (invID jobTemplateID workflowTemplateID
    credentialID : Int) (extraVars : ExtraVars) :
    (workflowTemplateID ≠ 0 →
      (launchRequest invID jobTemplateID workflowTemplateID credentialID extraVars).path =
        "/api/controller/v2/workflow_job_templates/" ++ toString workflowTemplateID
          ++ "/launch/") ∧
    (workflowTemplateID = 0 →
      (launchRequest invID jobTemplateID workflowTemplateID credentialID extraVars).path =
        "/api/controller/v2/job_templates/" ++ toString jobTemplateID ++ "/launch/") ∧
    getField (launchRequest invID jobTemplateID workflowTemplateID credentialID
      extraVars).body "inventory" = some (.int invID) ∧
    getField (launchRequest invID jobTemplateID workflowTemplateID credentialID
      extraVars).body "extra_vars" = some (.vars extraVars) ∧
    (credentialID ≠ 0 →
      getField (launchRequest invID jobTemplateID workflowTemplateID credentialID
        extraVars).body "credentials" = some (.ints [credentialID])) ∧
    (credentialID = 0 →
      getField (launchRequest invID jobTemplateID workflowTemplateID credentialID
        extraVars).body "credentials" = none) ∧
    (∀ (post post2 : Request → Reply) (unmarshalJob : String → Except Error Int),
      post (launchRequest invID jobTemplateID workflowTemplateID credentialID extraVars) =
        post2 (launchRequest invID jobTemplateID workflowTemplateID credentialID extraVars) →
      LaunchJob post unmarshalJob invID jobTemplateID workflowTemplateID credentialID
          extraVars =
        LaunchJob post2 unmarshalJob invID jobTemplateID workflowTemplateID credentialID
          extraVars) ∧
    (∀ (post : Request → Reply) (unmarshalJob : String → Except Error Int) (err : Error),
      post (launchRequest invID jobTemplateID workflowTemplateID credentialID extraVars) =
        .transportError err →
      LaunchJob post unmarshalJob invID jobTemplateID workflowTemplateID credentialID
          extraVars = .error (.ErrorfErr "failed to launch job: %s" [] err)) ∧
    (∀ (post : Request → Reply) (unmarshalJob : String → Except Error Int) (status : Nat)
        (body : String),
      post (launchRequest invID jobTemplateID workflowTemplateID credentialID extraVars) =
        .response status body →
      (status > 399 →
        LaunchJob post unmarshalJob invID jobTemplateID workflowTemplateID credentialID
          extraVars
          = .error (.ErrorfStrs "failed to launch job: %s (status: %d)" [body] [status])) ∧
      (∀ job, status ≤ 399 → unmarshalJob body = .ok job →
        LaunchJob post unmarshalJob invID jobTemplateID workflowTemplateID credentialID
          extraVars = .ok job) ∧
      (∀ err, status ≤ 399 → unmarshalJob body = .error err →
        LaunchJob post unmarshalJob invID jobTemplateID workflowTemplateID credentialID
          extraVars
          = .error (.ErrorfErr "failed to parse job launch response: %s" [] err))) := by
  refine ⟨?_, ?_, ?_, ?_, ?_, ?_, ?_, ?_, ?_⟩
  · intro hw
    simp [launchRequest, hw]
  · intro hw
    simp [launchRequest, hw]
  · by_cases hc : credentialID = 0 <;> by_cases hw : workflowTemplateID = 0 <;>
      simp [launchRequest, hc, hw, setField, getField]
  · by_cases hc : credentialID = 0 <;> by_cases hw : workflowTemplateID = 0 <;>
      simp [launchRequest, hc, hw, setField, getField]
  · intro hc
    by_cases hw : workflowTemplateID = 0 <;>
      simp [launchRequest, hc, hw, setField, getField]
  · intro hc
    by_cases hw : workflowTemplateID = 0 <;>
      simp [launchRequest, hc, hw, setField, getField]
  · intro post post2 unmarshalJob h
    unfold LaunchJob
    rw [h]
  · intro post unmarshalJob err h
    unfold LaunchJob
    rw [h]
  · intro post unmarshalJob status body h
    refine ⟨fun hs => ?_, fun job hs hj => ?_, fun err hs hj => ?_⟩
    · unfold LaunchJob
      rw [h]
      simp [hs]
    · have hns : ¬ status > 399 := by omega
      unfold LaunchJob
      rw [h]
      simp [hns, hj]
    · have hns : ¬ status > 399 := by omega
      unfold LaunchJob
      rw [h]
      simp [hns, hj]

/-- C18 at the two launch tests: job template 42, and workflow template 84, each
against a server that answers only on the expected path. -/
theorem launchRequest_endpoint_and_body_witness :
    (launchRequest 123 42 0 0 (some [("key1", .str "value1")])).path
      = "/api/controller/v2/job_templates/42/launch/" ∧
    (launchRequest 123 0 84 0 none).path
      = "/api/controller/v2/workflow_job_templates/84/launch/" ∧
    getField (launchRequest 123 0 84 7 none).body "credentials" = some (.ints [7]) ∧
    LaunchJob
      (fun r => if r.path = "/api/controller/v2/job_templates/42/launch/"
        then .response 200 "job 999" else .response 404 "not found")
      (fun _ => .ok 999) 123 42 0 0 none = .ok 999 ∧
    LaunchJob
      (fun r => if r.path = "/api/controller/v2/workflow_job_templates/84/launch/"
        then .response 200 "job 888" else .response 404 "not found")
      (fun _ => .ok 888) 123 0 84 0 none = .ok 888 :=
  ⟨(launchRequest_endpoint_and_body 123 42 0 0 _).2.1 rfl,
   (launchRequest_endpoint_and_body 123 0 84 0 none).1 (by decide),
   (launchRequest_endpoint_and_body 123 0 84 7 none).2.2.2.2.1 (by decide),
   ((launchRequest_endpoint_and_body 123 42 0 0 none).2.2.2.2.2.2.2.2 _ _ 200 "job 999"
      (by decide)).2.1 999 (by decide) rfl,
   ((launchRequest_endpoint_and_body 123 0 84 0 none).2.2.2.2.2.2.2.2 _ _ 200 "job 888"
      (by decide)).2.1 888 (by decide) rfl⟩

end client

namespace client

/-- C19: for all host details and credential-type hints, the variables of `CreateHost`
contain `ansible_host`, `ansible_port` and `ansible_user` with the given address, port
and username. They are the WinRM set (connection "winrm", certificate validation
"ignore", become method "runas") if and only if the port is 5985 or 5986 or the hint is
"winrm_password", and otherwise the SSH set (connection "ssh" and none of the WinRM
variables). In the WinRM set `ansible_winrm_scheme` is "http" exactly for port 5985,
"https" exactly for port 5986, and absent for any other port. -/
theorem hostVars_connection_set (details : HostDetails) (credentialType : String) :
    getField (hostVars details credentialType) "ansible_host" = some (.str details.Host) ∧
    getField (hostVars details credentialType) "ansible_port" = some (.int details.Port) ∧
    getField (hostVars details credentialType) "ansible_user"
      = some (.str details.Username) ∧
    (getField (hostVars details credentialType) "ansible_connection" = some (.str "winrm") ↔
      (details.Port = 5985 ∨ details.Port = 5986 ∨ credentialType = "winrm_password")) ∧
    ((details.Port = 5985 ∨ details.Port = 5986 ∨ credentialType = "winrm_password") →
      getField (hostVars details credentialType) "ansible_winrm_server_cert_validation"
        = some (.str "ignore") ∧
      getField (hostVars details credentialType) "ansible_become_method"
        = some (.str "runas") ∧
      (getField (hostVars details credentialType) "ansible_winrm_scheme" = some (.str "http")
        ↔ details.Port = 5985) ∧
      (getField (hostVars details credentialType) "ansible_winrm_scheme" = some (.str "https")
        ↔ details.Port = 5986) ∧
      (getField (hostVars details credentialType) "ansible_winrm_scheme" = none
        ↔ (details.Port ≠ 5985 ∧ details.Port ≠ 5986))) ∧
    (¬ (details.Port = 5985 ∨ details.Port = 5986 ∨ credentialType = "winrm_password") →
      getField (hostVars details credentialType) "ansible_connection" = some (.str "ssh") ∧
      getField (hostVars details credentialType) "ansible_winrm_server_cert_validation"
        = none ∧
      getField (hostVars details credentialType) "ansible_winrm_transport" = none ∧
      getField (hostVars details credentialType) "ansible_winrm_scheme" = none ∧
      getField (hostVars details credentialType) "ansible_become_method" = none ∧
      getField (hostVars details credentialType) "ansible_become" = none ∧
      getField (hostVars details credentialType) "ansible_become_user" = none) := by
  by_cases hw : details.Port = 5985 ∨ details.Port = 5986 ∨ credentialType = "winrm_password"
  · by_cases h1 : details.Port = 5985
    · simp [hostVars, h1, setField, getField]
    · by_cases h2 : details.Port = 5986
      · simp [hostVars, h2, setField, getField]
      · have h3 : credentialType = "winrm_password" := by
          rcases hw with h | h | h
          · exact absurd h h1
          · exact absurd h h2
          · exact h
        simp [hostVars, h1, h2, h3, setField, getField]
  · have h1 : details.Port ≠ 5985 := fun h => hw (Or.inl h)
    have h2 : details.Port ≠ 5986 := fun h => hw (Or.inr (Or.inl h))
    have h3 : credentialType ≠ "winrm_password" := fun h => hw (Or.inr (Or.inr h))
    simp [hostVars, h1, h2, h3, setField, getField]

/-- C19 at the host of the test (port 22, hint "ssh_key") and at a WinRM host. -/
theorem hostVars_connection_set_witness :
    getField (hostVars ⟨"192.168.1.100", 22, "ec2-user", ""⟩ "ssh_key") "ansible_connection"
      = some (.str "ssh") ∧
    getField (hostVars ⟨"10.0.0.9", 5986, "Administrator", "pw"⟩ "ssh_key")
      "ansible_winrm_server_cert_validation" = some (.str "ignore") :=
  ⟨((hostVars_connection_set ⟨"192.168.1.100", 22, "ec2-user", ""⟩ "ssh_key").2.2.2.2.2
      (by decide)).1,
   ((hostVars_connection_set ⟨"10.0.0.9", 5986, "Administrator", "pw"⟩ "ssh_key").2.2.2.2.1
      (by decide)).1⟩

end client

namespace client

/-- The lookup loop finds nothing exactly when no entry has the name. -/
theorem findCredentialTypeID_eq_none_iff (types : List CredentialType) (name : String) :
    findCredentialTypeID types name = none ↔ ∀ ct ∈ types, ct.Name ≠ name := by
  induction types with
  | nil => simp [findCredentialTypeID]
  | cons ct rest ih =>
    by_cases h : ct.Name = name
    · simp [findCredentialTypeID, h]
    · simp [findCredentialTypeID, h, ih]

/-- The lookup loop returns the id of the first entry with the name. -/
theorem findCredentialTypeID_first (pre post : List CredentialType) (ct : CredentialType)
    (name : String) (hpre : ∀ c ∈ pre, c.Name ≠ name) (hct : ct.Name = name) :
    findCredentialTypeID (pre ++ ct :: post) name = some ct.ID := by
  induction pre with
  | nil => simp [findCredentialTypeID, hct]
  | cons c pre ih =>
    have hc : c.Name ≠ name := hpre c (List.mem_cons_self _ _)
    have hrest : ∀ d ∈ pre, d.Name ≠ name := fun d hd => hpre d (List.mem_cons_of_mem _ hd)
    simp [findCredentialTypeID, hc, ih hrest]

/-- Every joined element occurs in the text that `Join` builds. -/
theorem Join_contains (sep : String) (items : List String) :
    ∀ item ∈ items, item.toList <:+: (Join items sep).toList := by
  induction items with
  | nil => intro item h; simp at h
  | cons a rest ih =>
    intro item h
    cases rest with
    | nil =>
      have : item = a := by simpa using h
      subst this
      simp [Join]
    | cons b rest =>
      have htl : (Join (a :: b :: rest) sep).toList
          = a.toList ++ (sep.toList ++ (Join (b :: rest) sep).toList) := by
        simp [Join, String.toList, String.data_append]
      rw [htl]
      rcases List.mem_cons.1 h with rfl | h
      · exact ⟨[], sep.toList ++ (Join (b :: rest) sep).toList, by simp⟩
      · obtain ⟨s, t, hst⟩ := ih item h
        exact ⟨a.toList ++ sep.toList ++ s, t, by rw [← hst]; simp [List.append_assoc]⟩

/-- The name of a credential type opens its description. -/
theorem describeCredentialType_contains (ct : CredentialType) :
    ct.Name.toList <:+: (describeCredentialType ct).toList := by
  refine ⟨[], (" (ID: " ++ toString ct.ID ++ ")").toList, ?_⟩
  simp [describeCredentialType, String.toList, String.data_append]

/-- C20: for every list of credential types that the listing returned and every name,
`GetCredentialTypeID` succeeds if and only if some entry has exactly that name, and it
then returns the id of the first such entry in listing order; when no entry matches it
fails with the error whose text is built from the requested name and the description
of every listed type, in which the name of each listed type occurs. A failed listing
is returned as it is. -/
theorem GetCredentialTypeID_first_match (types : List CredentialType) (name : String) :
    ((∃ id, GetCredentialTypeID (.ok types) name = .ok id) ↔ ∃ ct ∈ types, ct.Name = name) ∧
    (∀ (pre post : List CredentialType) (ct : CredentialType),
      types = pre ++ ct :: post → (∀ c ∈ pre, c.Name ≠ name) → ct.Name = name →
      GetCredentialTypeID (.ok types) name = .ok ct.ID) ∧
    ((∀ ct ∈ types, ct.Name ≠ name) →
      GetCredentialTypeID (.ok types) name =
        .error (.ErrorfStrs "credential type '%s' not found. Available types: %s"
          [name, Join (types.map describeCredentialType) ", "] []) ∧
      ∀ ct ∈ types,
        ct.Name.toList <:+: (Join (types.map describeCredentialType) ", ").toList) ∧
    (∀ err, GetCredentialTypeID (.error err) name = .error err) := by
  refine ⟨?_, ?_, ?_, fun err => rfl⟩
  · constructor
    · rintro ⟨id, hid⟩
      by_contra hno
      have hnone : findCredentialTypeID types name = none :=
        (findCredentialTypeID_eq_none_iff types name).2
          (fun ct hct hn => hno ⟨ct, hct, hn⟩)
      simp [GetCredentialTypeID, hnone] at hid
    · rintro ⟨ct, hct, hn⟩
      cases hf : findCredentialTypeID types name with
      | none => exact absurd hn ((findCredentialTypeID_eq_none_iff types name).1 hf ct hct)
      | some id => exact ⟨id, by simp [GetCredentialTypeID, hf]⟩
  · intro pre post ct htypes hpre hct
    simp [GetCredentialTypeID, htypes, findCredentialTypeID_first pre post ct name hpre hct]
  · intro hno
    have hnone := (findCredentialTypeID_eq_none_iff types name).2 hno
    refine ⟨by simp [GetCredentialTypeID, hnone], fun ct hct => ?_⟩
    exact (describeCredentialType_contains ct).trans
      (Join_contains ", " _ _ (List.mem_map_of_mem _ hct))

/-- C20 at the listing of the test: "Machine" gives 4, "NonExistent" and the lower-case
"machine" give the error. -/
theorem GetCredentialTypeID_first_match_witness :
    GetCredentialTypeID (.ok listedTypes) "Machine" = .ok 4 ∧
    GetCredentialTypeID (.ok listedTypes) "NonExistent" =
      .error (.ErrorfStrs "credential type '%s' not found. Available types: %s"
        ["NonExistent", "Machine (ID: 4), Source Control (ID: 2), Vault (ID: 3)"] []) ∧
    GetCredentialTypeID (.ok listedTypes) "machine" =
      .error (.ErrorfStrs "credential type '%s' not found. Available types: %s"
        ["machine", "Machine (ID: 4), Source Control (ID: 2), Vault (ID: 3)"] []) :=
  ⟨(GetCredentialTypeID_first_match listedTypes "Machine").2.1 [] _ ⟨4, "Machine"⟩ rfl
      (by simp) rfl,
   ((GetCredentialTypeID_first_match listedTypes "NonExistent").2.2.1 (by decide)).1,
   ((GetCredentialTypeID_first_match listedTypes "machine").2.2.1 (by decide)).1⟩

end client

/-! ## Credential auto-creation, inventory creation, and the paginated listing -/

namespace config

/-- C23: for every configuration on which `Validate` succeeds, `create_credential` is
true afterwards, whatever it was before; an explicit false has been turned into true. -/
theorem Validate_forces_create_credential (c : Config) (h : c.Validate.1 = none) :
    c.Validate.2.CreateCredential = true := by
  rw [Validate_of_acceptable c ((Validate_nil_iff c).1 h)]
  exact (defaulted_fields c).2.2.2.1

/-- C23 at a configuration that sets `create_credential` to false. -/
theorem Validate_forces_create_credential_witness :
    cfgJobTemplate.CreateCredential = false ∧
    cfgJobTemplate.Validate.2.CreateCredential = true :=
  ⟨rfl, Validate_forces_create_credential cfgJobTemplate (by decide)⟩

end config

namespace client

/-- C22, as the code has it: `CreateInventory` fails when the request fails in
transport, when the response has an error status (400 or above), when the body cannot
be parsed, or when the parsed identifier is zero; otherwise (any status below 400, a
parsed non-zero identifier) it returns exactly that identifier with a nil error. On
every failure the returned identifier is 0. -/
theorem CreateInventory_outcomes (post : Request → Reply)
    (unmarshalID : String → Except Error Int) (now orgID : Int) :
    (∀ err, post (inventoryRequest now orgID) = .transportError err →
      ∃ e, CreateInventory post unmarshalID now orgID = (0, some e)) ∧
    (∀ status body, post (inventoryRequest now orgID) = .response status body →
      ((400 ≤ status ∨ (∃ err, unmarshalID body = .error err) ∨ unmarshalID body = .ok 0) →
        ∃ e, CreateInventory post unmarshalID now orgID = (0, some e)) ∧
      (∀ id, status < 400 → unmarshalID body = .ok id → id ≠ 0 →
        CreateInventory post unmarshalID now orgID = (id, none))) ∧
    ((CreateInventory post unmarshalID now orgID).2 ≠ none →
      (CreateInventory post unmarshalID now orgID).1 = 0) := by
  refine ⟨?_, ?_, ?_⟩
  · intro err h
    exact ⟨.ErrorfErr "failed to create inventory: %s" [] err, by simp [CreateInventory, h]⟩
  · intro status body h
    constructor
    · intro hfail
      by_cases hs : 400 ≤ status
      · have : IsError status = true := by simp [IsError]; omega
        exact ⟨.ErrorfStrs "failed to create inventory: %s (status: %d)" [body] [status],
          by simp [CreateInventory, h, this]⟩
      · have hne : IsError status = false := by simp [IsError]; omega
        rcases hfail with h1 | ⟨err, h2⟩ | h3
        · exact absurd h1 hs
        · exact ⟨.ErrorfErr "failed to parse inventory response: %s" [] err,
            by simp [CreateInventory, h, hne, h2]⟩
        · exact ⟨.ErrorfStrs "failed to create inventory. Response: %s" [body] [],
            by simp [CreateInventory, h, hne, h3]⟩
    · intro id hs hid hnz
      have hne : IsError status = false := by simp [IsError]; omega
      simp [CreateInventory, h, hne, hid, hnz]
  · intro hfail
    unfold CreateInventory at hfail ⊢
    cases hp : post (inventoryRequest now orgID) with
    | transportError err => simp [hp]
    | response status body =>
      simp only [hp] at hfail ⊢
      by_cases hs : IsError status = true
      · simp [hs]
      · simp only [hs] at hfail ⊢
        cases hu : unmarshalID body with
        | error err => simp [hu]
        | ok id =>
          simp only [hu] at hfail ⊢
          by_cases hz : id = 0
          · simp [hz]
          · simp [hz] at hfail

/-- C22 at the two tests: the body with id 123 gives 123, status 400 gives an error
and identifier 0. -/
theorem CreateInventory_outcomes_witness :
    CreateInventory (fun _ => .response 200 "\x7b\"id\":123\x7d") unmarshalTestID 0 1
      = (123, none) ∧
    ∃ e, CreateInventory (fun _ => .response 400 "Bad request") unmarshalTestID 0 1
      = (0, some e) :=
  ⟨((CreateInventory_outcomes (fun _ => .response 200 "\x7b\"id\":123\x7d")
      unmarshalTestID 0 1).2.1 200 _ rfl).2 123 (by decide) (by decide) (by decide),
   ((CreateInventory_outcomes (fun _ => .response 400 "Bad request")
      unmarshalTestID 0 1).2.1 400 _ rfl).1 (Or.inl (by decide))⟩

/-- C22 fails as stated: a response with status 302, which is not a 2xx status, and the
body with id 123 makes `CreateInventory` return 123 with a nil error. -/
theorem CreateInventory_accepts_status_302 :
    ¬ (200 ≤ 302 ∧ 302 < 300) ∧
    CreateInventory (fun _ => .response 302 "\x7b\"id\":123\x7d") unmarshalTestID 0 1
      = (123, none) := by
  decide

end client

namespace client

/-- With an empty URL the loop returns what it has gathered. -/
theorem GetCredentialTypes_loop_done (get : String → Reply)
    (unmarshal : String → Except Error Page) (fuel : Nat) (all : List CredentialType)
    (fetched : List String) :
    GetCredentialTypes.loop get unmarshal fuel "" all fetched = some ⟨.ok all, fetched⟩ := by
  cases fuel <;> simp [GetCredentialTypes.loop]

/-- The loop runs through pages that are served one after the other, gathering their
results and URLs. -/
theorem GetCredentialTypes_loop_served (get : String → Reply)
    (unmarshal : String → Except Error Page) (pre : List Page) :
    ∀ (url : String) (all : List CredentialType) (fetched : List String) (fuel : Nat),
      ServedFrom get unmarshal url pre →
      GetCredentialTypes.loop get unmarshal (fuel + pre.length) url all fetched =
        GetCredentialTypes.loop get unmarshal fuel (urlAfter url pre)
          (all ++ resultsOf pre) (fetched ++ chainURLs url pre) := by
  induction pre with
  | nil => intro url all fetched fuel _; simp [urlAfter, resultsOf, chainURLs]
  | cons page rest ih =>
    intro url all fetched fuel h
    obtain ⟨hne, ⟨status, body, hget, hstatus, hbody⟩, hrest⟩ := h
    have hstep := ih (nextURL page.Next) (all ++ page.Results) (fetched ++ [url]) fuel hrest
    have hlen : fuel + (page :: rest).length = (fuel + rest.length) + 1 := by
      simp [Nat.add_assoc]
    rw [hlen]
    simp only [GetCredentialTypes.loop, if_neg hne, hget, hstatus, hbody]
    refine Eq.trans hstep ?_
    simp [urlAfter, resultsOf, chainURLs, List.append_assoc]

/-- A failing fetch ends the loop with an error, and nothing of what was gathered. -/
theorem GetCredentialTypes_loop_fails (get : String → Reply)
    (unmarshal : String → Except Error Page) (fuel : Nat) (url : String)
    (all : List CredentialType) (fetched : List String) (hne : url ≠ "")
    (h : FailsAt get unmarshal url) :
    ∃ e, GetCredentialTypes.loop get unmarshal (fuel + 1) url all fetched =
      some ⟨.error e, fetched ++ [url]⟩ := by
  rcases h with ⟨err, hget⟩ | ⟨status, body, hget, hbad⟩
  · exact ⟨.ErrorfErr "failed to fetch credential types: %s" [] err,
      by simp [GetCredentialTypes.loop, hne, hget]⟩
  · by_cases hs : IsError status = true
    · exact ⟨.ErrorfStrs "failed to fetch credential types: %s (status: %d)" [body] [status],
        by simp [GetCredentialTypes.loop, hne, hget, hs]⟩
    · rcases hbad with hbad | ⟨err, hbad⟩
      · exact absurd hbad hs
      · exact ⟨.ErrorfErr "failed to parse credential types response: %s" [] err,
          by simp [GetCredentialTypes.loop, hne, hget, hs, hbad]⟩

/-- A chain is a run of served pages after which the loop holds the empty URL. -/
theorem Chain_iff (get : String → Reply) (unmarshal : String → Except Error Page)
    (pages : List Page) :
    ∀ url, Chain get unmarshal url pages ↔
      (ServedFrom get unmarshal url pages ∧ urlAfter url pages = "") := by
  induction pages with
  | nil => intro url; simp [Chain, ServedFrom, urlAfter]
  | cons page rest ih =>
    intro url
    simp only [Chain, ServedFrom, urlAfter, ih]
    tauto

/-- What follows the first occurrence of `sep`: when no occurrence starts before
position `pre.length`, the rest after `pre ++ sep` is returned. -/
theorem afterFirst_of_first (sep rest : List Char) (pre : List Char) :
    (∀ k, k < pre.length → sep.isPrefixOf ((pre ++ sep ++ rest).drop k) = false) →
    afterFirst sep (pre ++ sep ++ rest) = some rest := by
  induction pre with
  | nil =>
    intro _
    have hp : sep.isPrefixOf (sep ++ rest) = true := by
      rw [List.isPrefixOf_iff_prefix]
      exact List.prefix_append sep rest
    cases hl : sep ++ rest with
    | nil =>
      have h1 : sep = [] := (List.append_eq_nil.1 hl).1
      have h2 : rest = [] := (List.append_eq_nil.1 hl).2
      simp [afterFirst, h1, h2]
    | cons c tl =>
      rw [hl] at hp
      simp only [List.nil_append, hl, afterFirst, hp, if_true]
      rw [← hl, List.drop_left]
  | cons c pre ih =>
    intro h
    have h0 := h 0 (by simp)
    have hrec := ih (fun k hk => by
      have := h (k + 1) (by simp; omega)
      simpa using this)
    simp only [List.drop_zero, List.cons_append, List.append_assoc] at h0 hrec ⊢
    simp only [afterFirst, h0, Bool.false_eq_true, if_false]
    exact hrec

/-- When `sep` does not occur, there is nothing after it. -/
theorem afterFirst_of_absent (sep : List Char) (s : List Char) (h : ¬ sep <:+: s) :
    afterFirst sep s = none := by
  induction s with
  | nil =>
    have hne : sep.isPrefixOf [] = false := by
      cases hp : sep.isPrefixOf []
      · rfl
      · exact absurd ((List.isPrefixOf_iff_prefix.1 hp).isInfix) h
    simp [afterFirst, hne]
  | cons c rest ih =>
    have hne : sep.isPrefixOf (c :: rest) = false := by
      cases hp : sep.isPrefixOf (c :: rest)
      · rfl
      · exact absurd ((List.isPrefixOf_iff_prefix.1 hp).isInfix) h
    have hrest : ¬ sep <:+: rest :=
      fun hi => h (hi.trans (List.suffix_cons c rest).isInfix)
    simp [afterFirst, hne, ih hrest]

/-- C21, as the code has it: for every finite chain of pages served from the start URL,
each at the URL the loop derives from the cursor of the page before, `GetCredentialTypes`
fetches exactly the URLs of the chain, once each and in order, and returns the results
of all pages concatenated in page order; a page that fails (transport error, error
status, or undecodable body) makes the call return an error and no results. The loop
derives no URL from a null or empty cursor, follows a cursor that does not begin with
"http" as it is, follows one that begins with "http" as "/api/" plus everything after
its first "/api/", and stops, as at the end of the listing, at one that begins with
"http" and contains no "/api/". -/
theorem GetCredentialTypes_follows_chain (get : String → Reply)
    (unmarshal : String → Except Error Page) :
    (∀ (pages : List Page) (fuel : Nat),
      Chain get unmarshal listingStart pages → pages.length ≤ fuel →
      GetCredentialTypes get unmarshal fuel =
        some ⟨.ok (resultsOf pages), chainURLs listingStart pages⟩) ∧
    (∀ (pre : List Page) (fuel : Nat),
      ServedFrom get unmarshal listingStart pre → urlAfter listingStart pre ≠ "" →
      FailsAt get unmarshal (urlAfter listingStart pre) → pre.length < fuel →
      ∃ e, GetCredentialTypes get unmarshal fuel =
        some ⟨.error e, chainURLs listingStart pre ++ [urlAfter listingStart pre]⟩) ∧
    nextURL none = "" ∧ nextURL (some "") = "" ∧
    (∀ n : String, n ≠ "" → HasPrefix n "http" = false → nextURL (some n) = n) ∧
    (∀ (n : String) (pre rest : List Char), HasPrefix n "http" = true →
      n.toList = pre ++ "/api/".toList ++ rest →
      (∀ k, k < pre.length → "/api/".toList.isPrefixOf (n.toList.drop k) = false) →
      nextURL (some n) = "/api/" ++ String.mk rest) ∧
    (∀ n : String, HasPrefix n "http" = true → ¬ "/api/".toList <:+: n.toList →
      nextURL (some n) = "") := by
  have hne : ∀ n : String, HasPrefix n "http" = true → n ≠ "" := by
    rintro n h rfl
    exact absurd h (by decide)
  refine ⟨?_, ?_, rfl, rfl, ?_, ?_, ?_⟩
  · intro pages fuel hchain hfuel
    obtain ⟨hserved, hend⟩ := (Chain_iff get unmarshal pages listingStart).1 hchain
    obtain ⟨extra, rfl⟩ := Nat.exists_eq_add_of_le hfuel
    have h := GetCredentialTypes_loop_served get unmarshal pages listingStart [] [] extra
      hserved
    rw [hend, GetCredentialTypes_loop_done] at h
    rw [Nat.add_comm]
    exact h
  · intro pre fuel hserved hurl hfail hfuel
    obtain ⟨extra, rfl⟩ := Nat.exists_eq_add_of_lt hfuel
    obtain ⟨e, he⟩ := GetCredentialTypes_loop_fails get unmarshal extra
      (urlAfter listingStart pre) (resultsOf pre) (chainURLs listingStart pre) hurl hfail
    refine ⟨e, ?_⟩
    have h := GetCredentialTypes_loop_served get unmarshal pre listingStart [] []
      (extra + 1) hserved
    have hlen : pre.length + extra + 1 = extra + 1 + pre.length := by omega
    simp only [List.nil_append] at h
    show GetCredentialTypes.loop get unmarshal (pre.length + extra + 1) listingStart [] [] = _
    rw [hlen, h, he]
  · intro n hn hrel
    simp [nextURL, hn, hrel]
  · intro n pre rest habs hsplit hfirst
    have hfound : afterFirst "/api/".toList n.toList = some rest := by
      rw [hsplit]
      apply afterFirst_of_first
      intro k hk
      rw [← hsplit]
      exact hfirst k hk
    simp only [nextURL, if_neg (hne n habs), if_pos habs, hfound]
  · intro n habs hno
    simp only [nextURL, if_neg (hne n habs), if_pos habs, afterFirst_of_absent _ _ hno]

/-- C21 at a server with three pages, the second named by an absolute URL and the third
by a relative one, and at the same server with the second page failing. -/
theorem GetCredentialTypes_follows_chain_witness :
    GetCredentialTypes getThreePages unmarshalPages 3 =
      some ⟨.ok [⟨4, "Machine"⟩, ⟨2, "Source Control"⟩, ⟨3, "Vault"⟩],
        [listingStart, "/api/controller/v2/credential_types/?page=2",
         "/api/controller/v2/credential_types/?page=3"]⟩ ∧
    ∃ e, GetCredentialTypes getSecondPageFails unmarshalPages 3 =
      some ⟨.error e, [listingStart, "/api/controller/v2/credential_types/?page=2"]⟩ :=
  ⟨(GetCredentialTypes_follows_chain getThreePages unmarshalPages).1
      [⟨[⟨4, "Machine"⟩],
          some "https://aap.example.com/api/controller/v2/credential_types/?page=2"⟩,
       ⟨[⟨2, "Source Control"⟩], some "/api/controller/v2/credential_types/?page=3"⟩,
       ⟨[⟨3, "Vault"⟩], none⟩] 3
      ⟨by decide, ⟨200, "page1", by decide, rfl, by decide⟩,
       by decide, ⟨200, "page2", by decide, rfl, by decide⟩,
       by decide, ⟨200, "page3", by decide, rfl, by decide⟩, rfl⟩
      (by decide),
   (GetCredentialTypes_follows_chain getSecondPageFails unmarshalPages).2.1
      [⟨[⟨4, "Machine"⟩],
          some "https://aap.example.com/api/controller/v2/credential_types/?page=2"⟩] 3
      ⟨by decide, ⟨200, "page1", by decide, rfl, by decide⟩, trivial⟩
      (by decide)
      (Or.inr ⟨500, "server error", by decide, Or.inl rfl⟩)
      (by decide)⟩

/-- C21 fails as stated: the first page carries the non-empty cursor
"https://aap.example.com/v2/credential_types/?page=2", which begins with "http", and
`GetCredentialTypes` returns the results of the first page alone after a single fetch. -/
theorem GetCredentialTypes_stops_at_foreign_next :
    unmarshalPages "page1-foreign" =
      .ok ⟨[⟨4, "Machine"⟩], some "https://aap.example.com/v2/credential_types/?page=2"⟩ ∧
    HasPrefix "https://aap.example.com/v2/credential_types/?page=2" "http" = true ∧
    GetCredentialTypes getForeignNext unmarshalPages 10 =
      some ⟨.ok [⟨4, "Machine"⟩], [listingStart]⟩ := by
  decide

end client

/-! ## The timeout of the wait loop on a real clock -/

namespace client

/-- The wake-ups of the always-running backend all keep the loop waiting. -/
theorem runningLate_keepsWaiting (lates : List Nat) :
    ∀ w ∈ runningLate lates, w.keepsWaiting = true := by
  intro w hw
  obtain ⟨late, -, rfl⟩ := List.mem_map.1 hw
  rfl

/-- Against the always-running backend, entered with `n` fetches done at a time of at
least `n * I` that has not exceeded the timeout, the loop returns the timeout error
within fetch `T / I + 1` once the events reach that far. -/
theorem PollJob_loop_runningLate (jobID : Int) (T I : Nat) (hI : 0 < I) :
    ∀ (lates : List Nat) (elapsed : Int) (n : Nat),
      (n : Int) * (I : Int) ≤ elapsed → (n = 0 ∨ elapsed ≤ (T : Int)) →
      T / I + 1 ≤ n + lates.length →
      ∃ r, PollJob.loop jobID (T : Int) (I : Int) (runningLate lates) elapsed n = some r ∧
        r.err = some (.New "timeout waiting for job completion") ∧
        n + 1 ≤ r.fetches ∧ r.fetches ≤ T / I + 1 ∧ (T : Int) < r.elapsed := by
  have hdiv : ∀ (n : Nat) (elapsed : Int), (n : Int) * (I : Int) ≤ elapsed →
      elapsed ≤ (T : Int) → n ≤ T / I := by
    intro n elapsed h1 h2
    rw [Nat.le_div_iff_mul_le hI]
    have : ((n * I : Nat) : Int) ≤ (T : Int) := by
      push_cast
      exact le_trans h1 h2
    exact_mod_cast this
  intro lates
  induction lates with
  | nil =>
    intro elapsed n hge hle hlen
    exfalso
    rcases hle with rfl | hle
    · simp at hlen
    · have := hdiv n elapsed hge hle
      simp at hlen
      omega
  | cons late rest ih =>
    intro elapsed n hge hle hlen
    have hn : n ≤ T / I := by
      rcases hle with rfl | hle
      · exact Nat.zero_le _
      · exact hdiv n elapsed hge hle
    have hit : iterationTime (I : Int) late = (I : Int) + (late : Int) := by
      have : (0 : Int) ≤ (I : Int) := Int.ofNat_nonneg I
      simp [iterationTime, this]
    have hnext : ((n + 1 : Nat) : Int) * (I : Int) ≤ elapsed + iterationTime (I : Int) late := by
      rw [hit]
      have : (0 : Int) ≤ (late : Int) := Int.ofNat_nonneg late
      push_cast
      nlinarith
    have hrun : ¬ ("running" = "successful") := by decide
    have hrun2 : ¬ ("running" = "failed" ∨ false = true) := by decide
    have hcons : runningLate (late :: rest)
        = .timer (.ok "running" false) late :: runningLate rest := rfl
    rw [hcons]
    simp only [PollJob.loop, hrun, hrun2, if_false]
    by_cases hover : elapsed + iterationTime (I : Int) late > (T : Int)
    · rw [if_pos hover]
      exact ⟨_, rfl, rfl, le_refl _, by simpa using hn, hover⟩
    · rw [if_neg hover]
      have hlen2 : T / I + 1 ≤ (n + 1) + rest.length := by
        simp only [List.length_cons] at hlen
        omega
      obtain ⟨r, hr, herr, hlo, hhi, hel⟩ :=
        ih (elapsed + iterationTime (I : Int) late) (n + 1) hnext
          (Or.inr (not_lt.1 hover)) hlen2
      exact ⟨r, hr, herr, by omega, hhi, hel⟩

/-- The saturated reading of the clock exceeds a timeout below the largest duration
exactly when the elapsed time does, and never exceeds the largest duration. -/
theorem Since_gt_iff (T elapsed : Int) (hT : T < MaxDuration) :
    (Since elapsed > T ↔ elapsed > T) ∧ ¬ Since elapsed > MaxDuration := by
  unfold Since
  constructor
  · constructor
    · intro h
      exact lt_of_lt_of_le h (min_le_left _ _)
    · intro h
      exact lt_min h hT
  · exact not_lt.2 (min_le_right _ _)

/-- C8, as the code has it: for every timeout `0 ≤ T` below the largest duration and
poll interval `I > 0`, against the backend that always answers "running" with the
failed flag unset and with no cancellation, `PollJob` returns the timeout error at the
first iteration after which the elapsed time exceeds `T`, each iteration taking the poll
interval plus the time spent on the timer and the fetch. That is after at least one
fetch (the timeout is tested only after a completed sleep-and-fetch, also when `T = 0`
or `I > T`) and at most `T / I + 1` fetches, once that many wake-ups have happened; it
is after exactly `T / I + 1` fetches when every iteration takes exactly `I`. Below the
largest duration the saturation of the clock reading does not change the test. -/
theorem PollJob_times_out_at_first_late_reading (jobID : Int) (T I : Nat) (hI : 0 < I)
    (hT : (T : Int) < MaxDuration) :
    (∀ (pre : List Nat) (late : Nat) (rest : List Nat),
      (pre ≠ [] → elapsedOver (I : Int) (runningLate pre) ≤ (T : Int)) →
      elapsedOver (I : Int) (runningLate pre) + iterationTime (I : Int) late > (T : Int) →
      PollJob jobID (T : Int) (I : Int) (runningLate (pre ++ late :: rest)) =
        some ⟨some (.New "timeout waiting for job completion"), pre.length + 1,
          elapsedOver (I : Int) (runningLate pre) + iterationTime (I : Int) late⟩) ∧
    (∀ lates : List Nat, T / I + 1 ≤ lates.length →
      ∃ r, PollJob jobID (T : Int) (I : Int) (runningLate lates) = some r ∧
        r.err = some (.New "timeout waiting for job completion") ∧
        1 ≤ r.fetches ∧ r.fetches ≤ T / I + 1 ∧ (T : Int) < r.elapsed) ∧
    (∀ n : Nat, T / I + 1 ≤ n →
      PollJob jobID (T : Int) (I : Int) (runningLate (List.replicate n 0)) =
        some ⟨some (.New "timeout waiting for job completion"), T / I + 1,
          (((T / I + 1) * I : Nat) : Int)⟩) ∧
    (∀ elapsed : Int, Since elapsed > (T : Int) ↔ elapsed > (T : Int)) := by
  refine ⟨?_, ?_, ?_, fun elapsed => (Since_gt_iff (T : Int) elapsed hT).1⟩
  · intro pre late rest hpre hover
    have hsplit : runningLate (pre ++ late :: rest)
        = runningLate pre ++ .timer (.ok "running" false) late :: runningLate rest := by
      simp [runningLate]
    have hlen : (runningLate pre).length = pre.length := by simp [runningLate]
    have hne : runningLate pre ≠ [] → pre ≠ [] := by
      intro h hp
      exact h (by simp [hp, runningLate])
    have hloop := PollJob_loop_keepsWaiting jobID (T : Int) (I : Int) (runningLate pre)
      (.timer (.ok "running" false) late :: runningLate rest) 0 0
      (runningLate_keepsWaiting pre) (fun h => by simpa using hpre (hne h))
    have hrun : ¬ ("running" = "successful") := by decide
    have hrun2 : ¬ ("running" = "failed" ∨ false = true) := by decide
    unfold PollJob
    rw [hsplit, hloop]
    simp only [PollJob.loop, hrun, hrun2, if_false, zero_add, hlen, if_pos hover]
  · intro lates hlen
    obtain ⟨r, hr, herr, hlo, hhi, hel⟩ :=
      PollJob_loop_runningLate jobID T I hI lates 0 0 (by simp) (Or.inl rfl) (by omega)
    exact ⟨r, hr, herr, by omega, hhi, hel⟩
  · intro n hn
    have hideal : runningLate (List.replicate n 0) = alwaysRunning n := by
      simp [runningLate, alwaysRunning]
    rw [hideal]
    exact (PollJob_times_out_after_floor_plus_one jobID T I n hI).1 hn

/-- C8 at timeout 200 ms and poll interval 100 ms with iterations 1 ns late: the timeout
error comes at the second fetch; and on the idealised clock at the third, at 300 ms. -/
theorem PollJob_times_out_at_first_late_reading_witness :
    PollJob 999 200000000 100000000 (runningLate [1, 1, 1]) =
      some ⟨some (.New "timeout waiting for job completion"), 2, 200000002⟩ ∧
    PollJob 999 200000000 100000000 (runningLate (List.replicate 3 0)) =
      some ⟨some (.New "timeout waiting for job completion"), 3, 300000000⟩ :=
  ⟨(PollJob_times_out_at_first_late_reading 999 200000000 100000000 (by decide)
      (by decide)).1 [1] 1 [1] (by decide) (by decide),
   (PollJob_times_out_at_first_late_reading 999 200000000 100000000 (by decide)
      (by decide)).2.2.1 3 (by decide)⟩

/-- C8 fails as stated: at timeout 200 ms and poll interval 100 ms, where the claim
says three fetches and 300 ms, a run whose iterations take 1 ns more than the poll
interval returns the timeout error after two fetches, at 200000002 ns. -/
theorem PollJob_times_out_before_floor_plus_one :
    200000000 / 100000000 + 1 = 3 ∧
    PollJob 999 200000000 100000000 (runningLate [1, 1, 1]) =
      some ⟨some (.New "timeout waiting for job completion"), 2, 200000002⟩ := by
  decide

end client
